import Mathlib

/-!
A shallow embedding of the request handlers of `src/main.py`, a small
Flask + Firestore offers API.  Documents are association lists of
JSON-like values, the database is a pair of collections (products and
orders, each keyed by a document id), and every handler is a pure
function of the request pieces it reads, returning the HTTP response
together with the resulting database and the list of database
operations it performed.  Numeric values are modelled by `ℚ`.
-/

namespace Mobi

/-- JSON-like values, as stored in documents and sent in request bodies. -/
inductive Json where
  | null : Json
  | bool : Bool → Json
  | num : ℚ → Json
  | str : String → Json
  | arr : List Json → Json
  | obj : List (String × Json) → Json

/-- A document: a Python dict from field names to values (insertion ordered). -/
abbrev Doc := List (String × Json)

/-- The Firestore state seen by `main.py`: the `products` and `orders`
collections, each a map from document id to document. -/
structure DB where
  products : List (String × Doc)
  orders : List (String × Doc)

/-- Python truthiness of a JSON value (`if not v`). -/
def pyTruthy : Json → Bool
  | Json.null => false
  | Json.bool b => b
  | Json.num q => if q = 0 then false else true
  | Json.str s => if s = "" then false else true
  | Json.arr xs => !xs.isEmpty
  | Json.obj kvs => !kvs.isEmpty

/-- `isinstance(v, list)`. -/
def Json.isArr : Json → Bool
  | Json.arr _ => true
  | _ => false

/-- The element list of a JSON array (and `[]` on anything else; the
handlers only apply it under an `isArr` guard). -/
def Json.arrD : Json → List Json
  | Json.arr xs => xs
  | _ => []

/-- `d.get(k)` on a parsed JSON object (Python dict semantics; `None` when
the key is absent). -/
def dictGet (d : List (String × Json)) (k : String) : Json :=
  (List.lookup k d).getD Json.null

/-- `d.get(k, default)`. -/
def dictGetD (d : Doc) (k : String) (v : Json) : Json :=
  (List.lookup k d).getD v

/-- Python dict assignment `d[k] = v`: replace the value in place when the
key is present (keeping its position), append otherwise. -/
def setField (d : Doc) (k : String) (v : Json) : Doc :=
  if (List.lookup k d).isSome then
    d.map (fun kv => if kv.1 = k then (k, v) else kv)
  else
    d ++ [(k, v)]

/-- Firestore `DELETE_FIELD` applied to key `k` (deleting an absent field
is a no-op). -/
def deleteField (d : Doc) (k : String) : Doc :=
  d.filter (fun kv => !(kv.1 == k))

/-- Apply an update payload to a document, field by field. -/
def applyFields (d : Doc) (fs : List (String × Json)) : Doc :=
  fs.foldl (fun a kv => setField a kv.1 kv.2) d

/-- Python iteration over a JSON value: lists yield their elements, strings
yield one-character strings, dicts yield their keys, everything else
raises `TypeError`. -/
def pyIter : Json → Except String (List Json)
  | Json.arr xs => Except.ok xs
  | Json.str s => Except.ok (s.toList.map (fun c => Json.str (String.mk [c])))
  | Json.obj kvs => Except.ok (kvs.map (fun kv => Json.str kv.1))
  | _ => Except.error "TypeError: object is not iterable"

/-- Python subscription `v[k]` with a string key (`KeyError` when the key
is missing, `TypeError` when `v` is not a dict). -/
def pySubscr (v : Json) (k : String) : Except String Json :=
  match v with
  | Json.obj kvs =>
    match List.lookup k kvs with
    | some x => Except.ok x
    | none => Except.error "KeyError"
  | _ => Except.error "TypeError: value is not subscriptable"

/-- Python equality of a JSON value against a string (as used by set
membership: strings compare by value, non-strings are never equal). -/
def jsonEqStr (v : Json) (s : String) : Bool :=
  match v with
  | Json.str t => t == s
  | _ => false

/-- `str.split(sep)` worker for a one-character separator, with Python
semantics: every occurrence of the separator splits, empty segments are
kept; `acc` holds the reversed current segment. -/
def splitOnCharAux (sep : Char) : List Char → List Char → List (List Char)
  | [], acc => [acc.reverse]
  | c :: rest, acc =>
    if c = sep then acc.reverse :: splitOnCharAux sep rest []
    else splitOnCharAux sep rest (c :: acc)

/-- `auth_header.split(" ")` (Python `str.split` with an explicit single
space separator). -/
def pySplitSpace (s : String) : List String :=
  (splitOnCharAux ' ' s.toList []).map String.mk

/-- `auth_header.split(" ").pop()`: the split list is never empty, so
`pop` is its last element (the `""` default is unreachable). -/
def extract_token (auth_header : String) : String :=
  (pySplitSpace auth_header).getLastD ""

/-- An HTTP response: status code and JSON body. -/
structure HttpResp where
  status : Nat
  body : Json

/-- One database operation, as issued by the handlers. -/
inductive DbOp where
  | streamProducts : DbOp
  | streamOffers : DbOp
  | streamOrders : DbOp
  | getProduct : String → DbOp
  | commitBatch : List String → DbOp
  | updateProduct : String → DbOp
  deriving DecidableEq

/-- `check_auth(request)`: read the `Authorization` header, 401 when it is
missing or empty, otherwise hand the extracted token to the external
verifier (`auth.verify_id_token`, modelled by the `verify` argument) and
turn a verifier exception into a 401 with details. -/
def check_auth (headers : List (String × String)) (verify : String → Except String Json) :
    Option Json × Option HttpResp :=
  match List.lookup "Authorization" headers with
  | none =>
    (none, some ⟨401, Json.obj [("error", Json.str "No se proporcionó token de autorización")]⟩)
  | some auth_header =>
    if auth_header = "" then
      (none, some ⟨401, Json.obj [("error", Json.str "No se proporcionó token de autorización")]⟩)
    else
      match verify (extract_token auth_header) with
      | Except.ok decoded_token => (some decoded_token, none)
      | Except.error e =>
        (none, some ⟨401, Json.obj [("error", Json.str "Token inválido o expirado"),
                                    ("details", Json.str e)]⟩)

/-- The record list built by the `get_all_products` loop: every product
document with its `id` injected. -/
def get_all_products_docs (db : DB) : List Doc :=
  db.products.map (fun p => setField p.2 "id" (Json.str p.1))

/-- The Firestore filter `where('isOffer', '==', True)`: the field must be
present and equal to the boolean `true`. -/
def isOfferTrue (d : Doc) : Bool :=
  match List.lookup "isOffer" d with
  | some (Json.bool true) => true
  | _ => false

/-- The record list built by the `get_offers` loop: products matching the
server-side `isOffer == true` filter, with `id` injected. -/
def get_offers_docs (db : DB) : List Doc :=
  (db.products.filter (fun p => isOfferTrue p.2)).map
    (fun p => setField p.2 "id" (Json.str p.1))

/-- `GET /api/get_all_products`. -/
def get_all_products (headers : List (String × String)) (verify : String → Except String Json)
    (db : DB) : HttpResp × List DbOp :=
  match check_auth headers verify with
  | (_, some error_response) => (error_response, [])
  | (_, none) =>
    (⟨200, Json.arr ((get_all_products_docs db).map Json.obj)⟩, [DbOp.streamProducts])

/-- `GET /api/get_offers`. -/
def get_offers (headers : List (String × String)) (verify : String → Except String Json)
    (db : DB) : HttpResp × List DbOp :=
  match check_auth headers verify with
  | (_, some error_response) => (error_response, [])
  | (_, none) =>
    (⟨200, Json.arr ((get_offers_docs db).map Json.obj)⟩, [DbOp.streamOffers])

/-- The sold-id collection for one order document:
`for item in order.to_dict().get('items', []): sold.add(item['productId'])`. -/
def sold_of_order (d : Doc) : Except String (List Json) := do
  let items ← pyIter (dictGetD d "items" (Json.arr []))
  items.mapM (fun item => pySubscr item "productId")

/-- The `sold_product_ids` set, collected over every order document (kept
as a list; only membership matters). -/
def sold_product_ids (orders : List (String × Doc)) : Except String (List Json) := do
  let ls ← orders.mapM (fun o => sold_of_order o.2)
  pure ls.flatten

/-- `unsold_product_ids = all_product_ids - sold_product_ids` (Python set
difference, with Python equality between a document id and the collected
values). -/
def unsold_product_ids (db : DB) : Except String (List String) :=
  match sold_product_ids db.orders with
  | Except.error e => Except.error e
  | Except.ok sold =>
    Except.ok ((db.products.map Prod.fst).filter (fun i => !(sold.any (fun v => jsonEqStr v i))))

/-- The body of the suggestion loop: re-fetch the product, skip it when it
no longer exists or already has a truthy `isOffer`, otherwise inject `id`. -/
def fetchSuggestion (db : DB) (product_id : String) : Option Doc :=
  match List.lookup product_id db.products with
  | some d =>
    if pyTruthy (dictGetD d "isOffer" (Json.bool false)) then none
    else some (setField d "id" (Json.str product_id))
  | none => none

/-- The suggestion computation of `offer_suggestions`, together with the
database operations it performs.  `enumOf` models `list(unsold_set)`:
the unspecified enumeration Python chooses for the set. -/
def suggestions_core (db : DB) (enumOf : List String → List String) :
    List DbOp × Except String (List Doc) :=
  match unsold_product_ids db with
  | Except.error e => ([DbOp.streamProducts, DbOp.streamOrders], Except.error e)
  | Except.ok unsold =>
    let chosen := if unsold.isEmpty then [] else (enumOf unsold).take 5
    ([DbOp.streamProducts, DbOp.streamOrders] ++ chosen.map DbOp.getProduct,
     Except.ok (chosen.filterMap (fetchSuggestion db)))

/-- `GET /api/offer_suggestions`. -/
def offer_suggestions (headers : List (String × String)) (verify : String → Except String Json)
    (db : DB) (enumOf : List String → List String) : HttpResp × List DbOp :=
  match check_auth headers verify with
  | (_, some error_response) => (error_response, [])
  | (_, none) =>
    let res := suggestions_core db enumOf
    match res.2 with
    | Except.ok suggestions => (⟨200, Json.arr (suggestions.map Json.obj)⟩, res.1)
    | Except.error e =>
      (⟨500, Json.obj [("error", Json.str ("Error al generar sugerencias: " ++ e))]⟩, res.1)

/-- Client-side validity of a Firestore document path segment: it must be
a nonempty string without a slash, anything else makes
`collection('products').document(...)` raise `ValueError`. -/
def validDocId (s : String) : Bool :=
  !(s == "") && !(s.toList.contains '/')

/-- `db.collection('products').document(v)` applied to a request-supplied
value. -/
def docRefId (v : Json) : Except String String :=
  match v with
  | Json.str s =>
    if validDocId s then Except.ok s
    else Except.error "ValueError: invalid document path"
  | _ => Except.error "ValueError: document path must be a string"

/-- `1 - discount / 100` with Python arithmetic (booleans are integers,
other non-numbers raise `TypeError`). -/
def discountFactor : Json → Except String ℚ
  | Json.num q => Except.ok (1 - q / 100)
  | Json.bool b => Except.ok (1 - (if b then (1 : ℚ) else 0) / 100)
  | _ => Except.error "TypeError: unsupported operand type for division"

/-- `original_price * factor` with Python arithmetic. -/
def pyMulNum (v : Json) (factor : ℚ) : Except String ℚ :=
  match v with
  | Json.num p => Except.ok (p * factor)
  | Json.bool b => Except.ok ((if b then (1 : ℚ) else 0) * factor)
  | _ => Except.error "TypeError: unsupported operand type for multiplication"

/-- The update payload staged for one existing product document:
`isOffer=True`, `offerPrice = price * (1 - discount/100)` with the stored
`price` (default `0`), and `discountPercentage = discount`. -/
def offerUpdate (d : Doc) (discount : Json) : Except String (List (String × Json)) :=
  match discountFactor discount with
  | Except.error e => Except.error e
  | Except.ok factor =>
    match pyMulNum (dictGetD d "price" (Json.num 0)) factor with
    | Except.error e => Except.error e
    | Except.ok offer_price =>
      Except.ok [("isOffer", Json.bool true), ("offerPrice", Json.num offer_price),
        ("discountPercentage", discount)]

/-- The staging loop of `create_offers`: for every listed id, resolve the
document reference, fetch it, silently skip missing documents, and stage
the offer update for the rest.  Returns the reads performed and either the
staged updates or the first exception. -/
def stage_offers (db : DB) (discount : Json) :
    List Json → List DbOp × Except String (List (String × List (String × Json)))
  | [] => ([], Except.ok [])
  | v :: rest =>
    match docRefId v with
    | Except.error e => ([], Except.error e)
    | Except.ok product_id =>
      match List.lookup product_id db.products with
      | none =>
        let res := stage_offers db discount rest
        (DbOp.getProduct product_id :: res.1, res.2)
      | some d =>
        match offerUpdate d discount with
        | Except.error e => ([DbOp.getProduct product_id], Except.error e)
        | Except.ok fields =>
          let res := stage_offers db discount rest
          (DbOp.getProduct product_id :: res.1,
           res.2.map (fun us => (product_id, fields) :: us))

/-- Replace the document keyed `pid` (all its occurrences) by `g` of it. -/
def mapReplace (products : List (String × Doc)) (pid : String) (g : Doc → Doc) :
    List (String × Doc) :=
  products.map (fun p => if p.1 = pid then (p.1, g p.2) else p)

/-- One committed batch update: merge the staged fields into the target
document. -/
def applyUpdate (products : List (String × Doc)) (u : String × List (String × Json)) :
    List (String × Doc) :=
  mapReplace products u.1 (fun d => applyFields d u.2)

/-- `batch.commit()`: apply every staged update in staging order. -/
def commitUpdates (db : DB) (us : List (String × List (String × Json))) : DB :=
  ⟨us.foldl applyUpdate db.products, db.orders⟩

/-- `POST /api/create_offers`.  `data` is the parsed JSON body. -/
def create_offers (headers : List (String × String)) (verify : String → Except String Json)
    (db : DB) (data : List (String × Json)) : HttpResp × DB × List DbOp :=
  match check_auth headers verify with
  | (_, some error_response) => (error_response, db, [])
  | (_, none) =>
    let product_ids := dictGet data "productIds"
    let discount := dictGet data "discountPercentage"
    if !pyTruthy product_ids || !product_ids.isArr || !pyTruthy discount then
      (⟨400, Json.obj [("error", Json.str "Datos inválidos")]⟩, db, [])
    else
      let res := stage_offers db discount product_ids.arrD
      match res.2 with
      | Except.ok us =>
        (⟨200, Json.obj [("success", Json.bool true),
                         ("message", Json.str "Ofertas creadas correctamente")]⟩,
         commitUpdates db us, res.1 ++ [DbOp.commitBatch (us.map Prod.fst)])
      | Except.error e =>
        (⟨500, Json.obj [("error", Json.str ("Error al crear ofertas: " ++ e))]⟩, db, res.1)

/-- The `remove_offer` update payload: delete `isOffer`, `offerPrice` and
`discountPercentage`. -/
def removeOfferFields (d : Doc) : Doc :=
  deleteField (deleteField (deleteField d "isOffer") "offerPrice") "discountPercentage"

/-- `POST /api/remove_offer`.  A field-deletion `update` on a missing
document raises (Firestore 404), surfacing as the 500 branch. -/
def remove_offer (headers : List (String × String)) (verify : String → Except String Json)
    (db : DB) (data : List (String × Json)) : HttpResp × DB × List DbOp :=
  match check_auth headers verify with
  | (_, some error_response) => (error_response, db, [])
  | (_, none) =>
    let product_id := dictGet data "productId"
    if !pyTruthy product_id then
      (⟨400, Json.obj [("error", Json.str "ID de producto no proporcionado")]⟩, db, [])
    else
      match docRefId product_id with
      | Except.error e =>
        (⟨500, Json.obj [("error", Json.str ("Error al eliminar la oferta: " ++ e))]⟩, db, [])
      | Except.ok pid =>
        match List.lookup pid db.products with
        | none =>
          (⟨500, Json.obj [("error",
              Json.str "Error al eliminar la oferta: 404 no document to update")]⟩,
           db, [DbOp.updateProduct pid])
        | some _ =>
          (⟨200, Json.obj [("success", Json.bool true), ("message", Json.str "Oferta eliminada.")]⟩,
           ⟨mapReplace db.products pid removeOfferFields, db.orders⟩,
           [DbOp.updateProduct pid])

/-- The offer-trio presence invariant on one document: `isOffer`,
`offerPrice` and `discountPercentage` are all present or all absent. -/
def trioOk (d : Doc) : Bool :=
  ((List.lookup "isOffer" d).isSome == (List.lookup "offerPrice" d).isSome) &&
  ((List.lookup "isOffer" d).isSome == (List.lookup "discountPercentage" d).isSome)

/-- The offer-trio invariant over the whole products collection. -/
def dbInv (db : DB) : Bool :=
  db.products.all (fun p => trioOk p.2)

/-- Whether a response body is a JSON object carrying an `error` key. -/
def hasErrorKey (r : HttpResp) : Bool :=
  match r.body with
  | Json.obj kvs => (List.lookup "error" kvs).isSome
  | _ => false

/-- Modelled from the spec: the token extraction the spec describes,
"split on whitespace, last token used" (Python `str.split()` with no
argument: split on runs of whitespace, dropping empty tokens).  `acc`
holds the reversed current token. -/
def wsTokensAux : List Char → List Char → List String
  | [], acc => if acc.isEmpty then [] else [String.mk acc.reverse]
  | c :: rest, acc =>
    if c.isWhitespace then
      if acc.isEmpty then wsTokensAux rest []
      else String.mk acc.reverse :: wsTokensAux rest []
    else wsTokensAux rest (c :: acc)

/-- Modelled from the spec: the last whitespace-separated token of a
header value. -/
def lastWhitespaceToken (h : String) : String :=
  (wsTokensAux h.toList []).getLastD ""

/-! ### Association-list lemmas -/

theorem lookup_cons {β : Type} (k a : String) (b : β) (tl : List (String × β)) :
    List.lookup k ((a, b) :: tl) = if k = a then some b else List.lookup k tl := by
  simp only [List.lookup]
  rcases eq_or_ne k a with h | h
  · simp [h]
  · have hb : (k == a) = false := beq_eq_false_iff_ne.mpr h
    simp [hb, h]

theorem lookup_map_setKey (k : String) (v : Json) :
    ∀ d : Doc, List.lookup k (d.map (fun kv => if kv.1 = k then (k, v) else kv)) =
      (List.lookup k d).map (fun _ => v)
  | [] => rfl
  | (a, b) :: tl => by
    rcases eq_or_ne a k with h | h
    · simp [h, lookup_cons, lookup_map_setKey k v tl]
    · have h2 : k ≠ a := fun hh => h hh.symm
      simp [h, lookup_cons, h2, lookup_map_setKey k v tl]

theorem lookup_map_setKey_ne (k k' : String) (v : Json) (h : k' ≠ k) :
    ∀ d : Doc, List.lookup k' (d.map (fun kv => if kv.1 = k then (k, v) else kv)) =
      List.lookup k' d
  | [] => rfl
  | (a, b) :: tl => by
    rcases eq_or_ne a k with ha | ha
    · simp [ha, lookup_cons, h, lookup_map_setKey_ne k k' v h tl]
    · rcases eq_or_ne k' a with hb | hb
      · simp [ha, hb, lookup_cons]
      · simp [ha, lookup_cons, hb, lookup_map_setKey_ne k k' v h tl]

theorem lookup_append_self (k : String) (v : Json) :
    ∀ d : Doc, List.lookup k d = none → List.lookup k (d ++ [(k, v)]) = some v
  | [], _ => by simp [lookup_cons]
  | (a, b) :: tl, h => by
    rw [lookup_cons] at h
    rcases eq_or_ne k a with ha | ha
    · simp [ha] at h
    · rw [List.cons_append, lookup_cons, if_neg ha]
      exact lookup_append_self k v tl (by simpa [ha] using h)

theorem lookup_append_ne (k k' : String) (v : Json) (h : k' ≠ k) :
    ∀ d : Doc, List.lookup k' (d ++ [(k, v)]) = List.lookup k' d
  | [] => by simp [lookup_cons, h]
  | (a, b) :: tl => by
    rw [List.cons_append, lookup_cons, lookup_cons]
    rcases eq_or_ne k' a with ha | ha
    · simp [ha]
    · simp [ha, lookup_append_ne k k' v h tl]

theorem lookup_setField_self (d : Doc) (k : String) (v : Json) :
    List.lookup k (setField d k v) = some v := by
  unfold setField
  split
  · rename_i hsome
    rw [lookup_map_setKey]
    obtain ⟨b, hb⟩ := Option.isSome_iff_exists.mp hsome
    simp [hb]
  · rename_i hnone
    refine lookup_append_self k v d ?_
    cases hlk : List.lookup k d
    · rfl
    · rw [hlk] at hnone
      simp at hnone

theorem lookup_setField_ne (d : Doc) (k k' : String) (v : Json) (h : k' ≠ k) :
    List.lookup k' (setField d k v) = List.lookup k' d := by
  unfold setField
  split
  · exact lookup_map_setKey_ne k k' v h d
  · exact lookup_append_ne k k' v h d

theorem lookup_deleteField_self (k : String) :
    ∀ d : Doc, List.lookup k (deleteField d k) = none
  | [] => rfl
  | (a, b) :: tl => by
    have ih := lookup_deleteField_self k tl
    unfold deleteField at ih ⊢
    rw [List.filter_cons]
    rcases eq_or_ne a k with ha | ha
    · have hc : (!(a == k)) = false := by simp [ha]
      rw [hc, if_neg (by simp)]
      exact ih
    · have hc : (!(a == k)) = true := by simp [ha]
      rw [hc, if_pos rfl, lookup_cons, if_neg (fun hh => ha hh.symm)]
      exact ih

theorem lookup_deleteField_ne (k k' : String) (h : k' ≠ k) :
    ∀ d : Doc, List.lookup k' (deleteField d k) = List.lookup k' d
  | [] => rfl
  | (a, b) :: tl => by
    have ih := lookup_deleteField_ne k k' h tl
    unfold deleteField at ih ⊢
    rw [List.filter_cons]
    rcases eq_or_ne a k with ha | ha
    · have hc : (!(a == k)) = false := by simp [ha]
      rw [hc, if_neg (by simp), ih, lookup_cons,
        if_neg (fun hh : k' = a => h (hh.trans ha))]
    · have hc : (!(a == k)) = true := by simp [ha]
      rw [hc, if_pos rfl, lookup_cons, lookup_cons, ih]

theorem lookup_applyFields_not_mem :
    ∀ (fs : List (String × Json)) (d : Doc) (k : String), k ∉ fs.map Prod.fst →
      List.lookup k (applyFields d fs) = List.lookup k d
  | [], d, k, _ => rfl
  | f :: tl, d, k, hk => by
    simp only [List.map_cons, List.mem_cons] at hk
    push_neg at hk
    have h1 : List.lookup k (applyFields (setField d f.1 f.2) tl)
        = List.lookup k (setField d f.1 f.2) :=
      lookup_applyFields_not_mem tl (setField d f.1 f.2) k hk.2
    calc List.lookup k (applyFields d (f :: tl))
        = List.lookup k (applyFields (setField d f.1 f.2) tl) := rfl
      _ = List.lookup k (setField d f.1 f.2) := h1
      _ = List.lookup k d := lookup_setField_ne d f.1 k f.2 hk.1

theorem lookup_mapReplace_self (pid : String) (g : Doc → Doc) :
    ∀ products : List (String × Doc),
      List.lookup pid (mapReplace products pid g) = (List.lookup pid products).map g
  | [] => rfl
  | (a, b) :: tl => by
    have ih := lookup_mapReplace_self pid g tl
    unfold mapReplace at ih ⊢
    rcases eq_or_ne a pid with ha | ha
    · simp [ha, lookup_cons, ih]
    · have h2 : pid ≠ a := fun hh => ha hh.symm
      simp [ha, lookup_cons, h2, ih]

theorem lookup_mapReplace_ne (pid j : String) (g : Doc → Doc) (h : j ≠ pid) :
    ∀ products : List (String × Doc),
      List.lookup j (mapReplace products pid g) = List.lookup j products
  | [] => rfl
  | (a, b) :: tl => by
    have ih := lookup_mapReplace_ne pid j g h tl
    unfold mapReplace at ih ⊢
    rcases eq_or_ne a pid with ha | ha
    · simp [ha, lookup_cons, h, ih]
    · rcases eq_or_ne j a with hb | hb
      · simp [ha, hb, lookup_cons]
      · simp [ha, lookup_cons, hb, ih]

theorem map_fst_mapReplace (pid : String) (g : Doc → Doc) :
    ∀ products : List (String × Doc),
      (mapReplace products pid g).map Prod.fst = products.map Prod.fst
  | [] => rfl
  | (a, b) :: tl => by
    rcases eq_or_ne a pid with ha | ha <;>
      simpa [mapReplace, ha] using map_fst_mapReplace pid g tl

/-! ### Commit lemmas -/

theorem lookup_commit_not_target (j : String) :
    ∀ (us : List (String × List (String × Json))) (products : List (String × Doc)),
      (∀ f, (j, f) ∉ us) →
      List.lookup j (us.foldl applyUpdate products) = List.lookup j products
  | [], _, _ => rfl
  | u :: rest, products, h => by
    have hj : j ≠ u.1 := by
      intro hh
      exact h u.2 (by rw [hh]; exact List.mem_cons_self u rest)
    rw [List.foldl_cons,
      lookup_commit_not_target j rest (applyUpdate products u)
        (fun f hf => h f (List.mem_cons_of_mem u hf))]
    exact lookup_mapReplace_ne u.1 j _ hj products

theorem map_fst_commit :
    ∀ (us : List (String × List (String × Json))) (products : List (String × Doc)),
      (us.foldl applyUpdate products).map Prod.fst = products.map Prod.fst
  | [], _ => rfl
  | u :: rest, products => by
    rw [List.foldl_cons, map_fst_commit rest _]
    exact map_fst_mapReplace u.1 _ products

theorem commit_lookup_of_payload (Q : Doc → Prop) (P : List (String × Json)) (s : String)
    (hQ : ∀ d, Q (applyFields d P)) :
    ∀ (us : List (String × List (String × Json))) (products : List (String × Doc)) (d₀ : Doc),
      List.lookup s products = some d₀ →
      (∀ f, (s, f) ∈ us → f = P) →
      ((s, P) ∈ us ∨ Q d₀) →
      ∃ d, List.lookup s (us.foldl applyUpdate products) = some d ∧ Q d
  | [], _, d₀, hlk, _, hor => by
    refine ⟨d₀, hlk, ?_⟩
    rcases hor with h | h
    · simp at h
    · exact h
  | u :: rest, products, d₀, hlk, hall, hor => by
    rw [List.foldl_cons]
    by_cases hu : u.1 = s
    · have hfP : u.2 = P := hall u.2 (by rw [← hu]; exact List.mem_cons_self u rest)
      have hlk2 : List.lookup s (applyUpdate products u) = some (applyFields d₀ u.2) := by
        unfold applyUpdate
        rw [hu, lookup_mapReplace_self, hlk]
        rfl
      refine commit_lookup_of_payload Q P s hQ rest _ _ hlk2
        (fun f hf => hall f (List.mem_cons_of_mem u hf)) (Or.inr ?_)
      rw [hfP]
      exact hQ d₀
    · have hlk2 : List.lookup s (applyUpdate products u) = some d₀ := by
        unfold applyUpdate
        rw [lookup_mapReplace_ne u.1 s _ (fun hh => hu hh.symm), hlk]
      refine commit_lookup_of_payload Q P s hQ rest _ _ hlk2
        (fun f hf => hall f (List.mem_cons_of_mem u hf)) ?_
      rcases hor with hmem | hq
      · rcases List.mem_cons.mp hmem with heq | hmem2
        · exact absurd (congrArg Prod.fst heq).symm hu
        · exact Or.inl hmem2
      · exact Or.inr hq

theorem commit_lookup_frame (keys : List String) (s : String) :
    ∀ (us : List (String × List (String × Json))) (products : List (String × Doc)) (d₀ : Doc),
      List.lookup s products = some d₀ →
      (∀ f, (s, f) ∈ us → f.map Prod.fst = keys) →
      ∃ d, List.lookup s (us.foldl applyUpdate products) = some d ∧
        ∀ k, k ∉ keys → List.lookup k d = List.lookup k d₀
  | [], _, d₀, hlk, _ => ⟨d₀, hlk, fun _ _ => rfl⟩
  | u :: rest, products, d₀, hlk, hall => by
    rw [List.foldl_cons]
    by_cases hu : u.1 = s
    · have hlk2 : List.lookup s (applyUpdate products u) = some (applyFields d₀ u.2) := by
        unfold applyUpdate
        rw [hu, lookup_mapReplace_self, hlk]
        rfl
      obtain ⟨d, hd, hframe⟩ := commit_lookup_frame keys s rest _ _ hlk2
        (fun f hf => hall f (List.mem_cons_of_mem u hf))
      refine ⟨d, hd, fun k hk => ?_⟩
      rw [hframe k hk]
      have hkeys : u.2.map Prod.fst = keys :=
        hall u.2 (by rw [← hu]; exact List.mem_cons_self u rest)
      exact lookup_applyFields_not_mem u.2 d₀ k (by rw [hkeys]; exact hk)
    · have hlk2 : List.lookup s (applyUpdate products u) = some d₀ := by
        unfold applyUpdate
        rw [lookup_mapReplace_ne u.1 s _ (fun hh => hu hh.symm), hlk]
      exact commit_lookup_frame keys s rest _ _ hlk2
        (fun f hf => hall f (List.mem_cons_of_mem u hf))

theorem mem_commit_trio :
    ∀ (us : List (String × List (String × Json))) (products : List (String × Doc)),
      (∀ p ∈ products, trioOk p.2 = true) →
      (∀ (i : String) (f), (i, f) ∈ us → ∀ d : Doc, trioOk (applyFields d f) = true) →
      ∀ p ∈ us.foldl applyUpdate products, trioOk p.2 = true
  | [], _, hp, _, p, hmem => hp p hmem
  | u :: rest, products, hp, hus, p, hmem => by
    rw [List.foldl_cons] at hmem
    refine mem_commit_trio rest _ ?_
      (fun i f hf => hus i f (List.mem_cons_of_mem u hf)) p hmem
    intro q hq
    unfold applyUpdate mapReplace at hq
    obtain ⟨q₀, hq₀, hqeq⟩ := List.mem_map.mp hq
    by_cases hc : q₀.1 = u.1
    · rw [← hqeq]
      simp only [hc, if_pos]
      exact hus u.1 u.2 (List.mem_cons_self u rest) q₀.2
    · rw [← hqeq]
      simp only [hc, if_neg, if_false]
      exact hp q₀ hq₀

/-! ### Offer payload and field-deletion lemmas -/

theorem lookup_offerPayload_isOffer (d : Doc) (op disc : Json) :
    List.lookup "isOffer"
      (applyFields d [("isOffer", Json.bool true), ("offerPrice", op),
        ("discountPercentage", disc)]) = some (Json.bool true) := by
  show List.lookup "isOffer"
    (setField (setField (setField d "isOffer" (Json.bool true)) "offerPrice" op)
      "discountPercentage" disc) = some (Json.bool true)
  rw [lookup_setField_ne _ _ _ _ (by decide), lookup_setField_ne _ _ _ _ (by decide),
    lookup_setField_self]

theorem lookup_offerPayload_offerPrice (d : Doc) (op disc : Json) :
    List.lookup "offerPrice"
      (applyFields d [("isOffer", Json.bool true), ("offerPrice", op),
        ("discountPercentage", disc)]) = some op := by
  show List.lookup "offerPrice"
    (setField (setField (setField d "isOffer" (Json.bool true)) "offerPrice" op)
      "discountPercentage" disc) = some op
  rw [lookup_setField_ne _ _ _ _ (by decide), lookup_setField_self]

theorem lookup_offerPayload_discount (d : Doc) (op disc : Json) :
    List.lookup "discountPercentage"
      (applyFields d [("isOffer", Json.bool true), ("offerPrice", op),
        ("discountPercentage", disc)]) = some disc := by
  show List.lookup "discountPercentage"
    (setField (setField (setField d "isOffer" (Json.bool true)) "offerPrice" op)
      "discountPercentage" disc) = some disc
  rw [lookup_setField_self]

theorem trioOk_offerPayload (d : Doc) (op disc : Json) :
    trioOk (applyFields d [("isOffer", Json.bool true), ("offerPrice", op),
      ("discountPercentage", disc)]) = true := by
  unfold trioOk
  rw [lookup_offerPayload_isOffer, lookup_offerPayload_offerPrice, lookup_offerPayload_discount]
  rfl

theorem lookup_removeOfferFields_isOffer (d : Doc) :
    List.lookup "isOffer" (removeOfferFields d) = none := by
  unfold removeOfferFields
  rw [lookup_deleteField_ne _ _ (by decide), lookup_deleteField_ne _ _ (by decide),
    lookup_deleteField_self]

theorem lookup_removeOfferFields_offerPrice (d : Doc) :
    List.lookup "offerPrice" (removeOfferFields d) = none := by
  unfold removeOfferFields
  rw [lookup_deleteField_ne _ _ (by decide), lookup_deleteField_self]

theorem lookup_removeOfferFields_discount (d : Doc) :
    List.lookup "discountPercentage" (removeOfferFields d) = none := by
  unfold removeOfferFields
  rw [lookup_deleteField_self]

theorem trioOk_removeOfferFields (d : Doc) : trioOk (removeOfferFields d) = true := by
  unfold trioOk
  rw [lookup_removeOfferFields_isOffer, lookup_removeOfferFields_offerPrice,
    lookup_removeOfferFields_discount]
  rfl

theorem lookup_removeOfferFields_other (d : Doc) (k : String)
    (h1 : k ≠ "isOffer") (h2 : k ≠ "offerPrice") (h3 : k ≠ "discountPercentage") :
    List.lookup k (removeOfferFields d) = List.lookup k d := by
  unfold removeOfferFields
  rw [lookup_deleteField_ne _ _ h3, lookup_deleteField_ne _ _ h2, lookup_deleteField_ne _ _ h1]

/-! ### Staging lemmas -/

theorem docRefId_ok (v : Json) (i : String) (h : docRefId v = Except.ok i) :
    v = Json.str i ∧ validDocId i = true := by
  cases v with
  | str s =>
    by_cases hv : validDocId s = true
    · have h2 : (Except.ok s : Except String String) = Except.ok i := by
        rw [← h]
        simp [docRefId, hv]
      injection h2 with h3
      subst h3
      exact ⟨rfl, hv⟩
    · exfalso
      have hr : docRefId (Json.str s) = Except.error "ValueError: invalid document path" := by
        simp [docRefId, hv]
      rw [hr] at h
      cases h
  | null => simp [docRefId] at h
  | bool b => simp [docRefId] at h
  | num q => simp [docRefId] at h
  | arr xs => simp [docRefId] at h
  | obj kvs => simp [docRefId] at h

theorem offerUpdate_ok_shape (d : Doc) (discount : Json) (f : List (String × Json))
    (h : offerUpdate d discount = Except.ok f) :
    ∃ op : ℚ, f = [("isOffer", Json.bool true), ("offerPrice", Json.num op),
      ("discountPercentage", discount)] := by
  unfold offerUpdate at h
  cases hdf : discountFactor discount with
  | error e => simp [hdf] at h
  | ok factor =>
    rw [hdf] at h
    cases hm : pyMulNum (dictGetD d "price" (Json.num 0)) factor with
    | error e => simp [hm] at h
    | ok op =>
      simp only [hm] at h
      injection h with h2
      exact ⟨op, h2.symm⟩

theorem offerUpdate_num (d : Doc) (q p : ℚ)
    (hp : dictGetD d "price" (Json.num 0) = Json.num p) :
    offerUpdate d (Json.num q) =
      Except.ok [("isOffer", Json.bool true), ("offerPrice", Json.num (p * (1 - q / 100))),
        ("discountPercentage", Json.num q)] := by
  unfold offerUpdate
  rw [hp]
  rfl

theorem stage_mem (db : DB) (discount : Json) :
    ∀ (ids : List Json) (us : List (String × List (String × Json))),
      (stage_offers db discount ids).2 = Except.ok us →
      ∀ i f, (i, f) ∈ us →
        Json.str i ∈ ids ∧ ∃ d, List.lookup i db.products = some d ∧
          offerUpdate d discount = Except.ok f
  | [], us, hok, i, f, hmem => by
    simp only [stage_offers] at hok
    injection hok with h
    subst h
    simp at hmem
  | v :: rest, us, hok, i, f, hmem => by
    unfold stage_offers at hok
    cases hdr : docRefId v with
    | error e => simp [hdr] at hok
    | ok pid =>
      simp only [hdr] at hok
      cases hlk : List.lookup pid db.products with
      | none =>
        simp only [hlk] at hok
        obtain ⟨hin, hd⟩ := stage_mem db discount rest us hok i f hmem
        exact ⟨List.mem_cons_of_mem v hin, hd⟩
      | some d =>
        simp only [hlk] at hok
        cases hup : offerUpdate d discount with
        | error e => simp [hup] at hok
        | ok fields =>
          simp only [hup] at hok
          cases hrest : (stage_offers db discount rest).2 with
          | error e => rw [hrest] at hok; simp [Except.map] at hok
          | ok us' =>
            rw [hrest] at hok
            simp only [Except.map] at hok
            injection hok with h4
            subst h4
            rcases List.mem_cons.mp hmem with heq | hmem2
            · have hi : i = pid := congrArg Prod.fst heq
              have hf2 : f = fields := congrArg Prod.snd heq
              obtain ⟨hv, _⟩ := docRefId_ok v pid hdr
              refine ⟨?_, d, ?_, ?_⟩
              · rw [hi, hv]
                exact List.mem_cons_self _ _
              · rw [hi]
                exact hlk
              · rw [hf2]
                exact hup
            · obtain ⟨hin, hd⟩ := stage_mem db discount rest us' hrest i f hmem2
              exact ⟨List.mem_cons_of_mem v hin, hd⟩

theorem stage_complete (db : DB) (discount : Json) :
    ∀ (ids : List Json) (us : List (String × List (String × Json))) (s : String) (d : Doc),
      (stage_offers db discount ids).2 = Except.ok us →
      Json.str s ∈ ids →
      List.lookup s db.products = some d →
      ∃ f, offerUpdate d discount = Except.ok f ∧ (s, f) ∈ us
  | [], _, s, _, _, hin, _ => by simp at hin
  | v :: rest, us, s, d, hok, hin, hlk => by
    unfold stage_offers at hok
    cases hdr : docRefId v with
    | error e => simp [hdr] at hok
    | ok pid =>
      simp only [hdr] at hok
      cases hlk2 : List.lookup pid db.products with
      | none =>
        simp only [hlk2] at hok
        rcases List.mem_cons.mp hin with heq | hin2
        · exfalso
          obtain ⟨hv, _⟩ := docRefId_ok v pid hdr
          rw [hv] at heq
          injection heq with h6
          rw [← h6, hlk] at hlk2
          cases hlk2
        · exact stage_complete db discount rest us s d hok hin2 hlk
      | some d2 =>
        simp only [hlk2] at hok
        cases hup : offerUpdate d2 discount with
        | error e => simp [hup] at hok
        | ok fields =>
          simp only [hup] at hok
          cases hrest : (stage_offers db discount rest).2 with
          | error e => rw [hrest] at hok; simp [Except.map] at hok
          | ok us' =>
            rw [hrest] at hok
            simp only [Except.map] at hok
            injection hok with h4
            subst h4
            rcases List.mem_cons.mp hin with heq | hin2
            · obtain ⟨hv, _⟩ := docRefId_ok v pid hdr
              rw [hv] at heq
              injection heq with h6
              rw [← h6] at hlk2
              rw [hlk] at hlk2
              injection hlk2 with h7
              refine ⟨fields, ?_, ?_⟩
              · rw [h7]
                exact hup
              · rw [h6]
                exact List.mem_cons_self _ _
            · obtain ⟨f, hf, hfin⟩ := stage_complete db discount rest us' s d hrest hin2 hlk
              exact ⟨f, hf, List.mem_cons_of_mem _ hfin⟩

theorem stage_ok (db : DB) (q : ℚ) :
    ∀ ids : List Json,
      (∀ v ∈ ids, ∃ s, v = Json.str s ∧ validDocId s = true) →
      (∀ s d, Json.str s ∈ ids → List.lookup s db.products = some d →
        ∃ p : ℚ, dictGetD d "price" (Json.num 0) = Json.num p) →
      ∃ us, (stage_offers db (Json.num q) ids).2 = Except.ok us
  | [], _, _ => ⟨[], rfl⟩
  | v :: rest, hids, hprice => by
    obtain ⟨s, hveq, hvalid⟩ := hids v (List.mem_cons_self v rest)
    have hdr : docRefId v = Except.ok s := by
      rw [hveq]
      simp [docRefId, hvalid]
    obtain ⟨us', hus'⟩ := stage_ok db q rest
      (fun w hw => hids w (List.mem_cons_of_mem v hw))
      (fun t d ht hd => hprice t d (List.mem_cons_of_mem v ht) hd)
    unfold stage_offers
    cases hlk : List.lookup s db.products with
    | none =>
      simp only [hdr, hlk]
      exact ⟨us', hus'⟩
    | some d =>
      have hsin : Json.str s ∈ v :: rest := by
        rw [← hveq]
        exact List.mem_cons_self v rest
      obtain ⟨p, hp⟩ := hprice s d hsin hlk
      have hup := offerUpdate_num d q p hp
      simp only [hdr, hlk, hup]
      refine ⟨(s, [("isOffer", Json.bool true), ("offerPrice", Json.num (p * (1 - q / 100))),
        ("discountPercentage", Json.num q)]) :: us', ?_⟩
      rw [hus']
      rfl

/-! ### Suggestion lemmas -/

theorem unsold_mem (db : DB) (l : List String) (h : unsold_product_ids db = Except.ok l)
    (i : String) (hi : i ∈ l) :
    ∃ sold, sold_product_ids db.orders = Except.ok sold ∧
      i ∈ db.products.map Prod.fst ∧ Json.str i ∉ sold := by
  unfold unsold_product_ids at h
  cases hs : sold_product_ids db.orders with
  | error e => rw [hs] at h; cases h
  | ok sold =>
    rw [hs] at h
    injection h with h2
    subst h2
    refine ⟨sold, rfl, List.mem_of_mem_filter hi, ?_⟩
    intro hcon
    have hp := List.of_mem_filter hi
    have h3 : sold.any (fun v => jsonEqStr v i) = true :=
      List.any_eq_true.mpr ⟨Json.str i, hcon, by simp [jsonEqStr]⟩
    rw [h3] at hp
    cases hp

theorem fetchSuggestion_spec (db : DB) (pid : String) (d : Doc)
    (h : fetchSuggestion db pid = some d) :
    ∃ d₀, List.lookup pid db.products = some d₀ ∧
      d = setField d₀ "id" (Json.str pid) ∧
      pyTruthy (dictGetD d₀ "isOffer" (Json.bool false)) = false := by
  unfold fetchSuggestion at h
  cases hlk : List.lookup pid db.products with
  | none => simp only [hlk] at h; cases h
  | some d₀ =>
    simp only [hlk] at h
    by_cases ht : pyTruthy (dictGetD d₀ "isOffer" (Json.bool false)) = true
    · rw [if_pos ht] at h
      cases h
    · rw [if_neg ht] at h
      injection h with h2
      have ht2 : pyTruthy (dictGetD d₀ "isOffer" (Json.bool false)) = false := by
        cases hb : pyTruthy (dictGetD d₀ "isOffer" (Json.bool false))
        · rfl
        · exact absurd hb ht
      exact ⟨d₀, rfl, h2.symm, ht2⟩

/-! ### Token-splitting lemmas -/

theorem string_mk_toList (t : String) : String.mk t.toList = t := rfl

theorem splitOnCharAux_no_sep (sep : Char) :
    ∀ (cs acc : List Char), sep ∉ cs → splitOnCharAux sep cs acc = [acc.reverse ++ cs]
  | [], acc, _ => by simp [splitOnCharAux]
  | c :: rest, acc, h => by
    have hc : ¬ c = sep := fun hh => h (hh ▸ List.mem_cons_self c rest)
    rw [splitOnCharAux, if_neg hc,
      splitOnCharAux_no_sep sep rest (c :: acc) (fun hh => h (List.mem_cons_of_mem c hh))]
    simp

theorem splitOnCharAux_append (sep : Char) (ys : List Char) :
    ∀ (xs acc : List Char), sep ∉ xs →
      splitOnCharAux sep (xs ++ sep :: ys) acc =
        (acc.reverse ++ xs) :: splitOnCharAux sep ys []
  | [], acc, _ => by
    rw [List.nil_append, splitOnCharAux, if_pos rfl]
    simp
  | x :: xs', acc, h => by
    have hx : ¬ x = sep := fun hh => h (hh ▸ List.mem_cons_self x xs')
    rw [List.cons_append, splitOnCharAux, if_neg hx,
      splitOnCharAux_append sep ys xs' (x :: acc) (fun hh => h (List.mem_cons_of_mem x hh))]
    simp

theorem pySplitSpace_no_space (t : String) (h : ' ' ∉ t.toList) : pySplitSpace t = [t] := by
  unfold pySplitSpace
  rw [splitOnCharAux_no_sep ' ' t.toList [] h]
  simp [string_mk_toList]

theorem extract_token_no_space (t : String) (h : ' ' ∉ t.toList) : extract_token t = t := by
  unfold extract_token
  rw [pySplitSpace_no_space t h]
  rfl

theorem extract_token_bearer (t : String) (h : ' ' ∉ t.toList) :
    extract_token ("Bearer " ++ t) = t := by
  unfold extract_token pySplitSpace
  have h1 : ("Bearer " ++ t).toList = ['B', 'e', 'a', 'r', 'e', 'r'] ++ ' ' :: t.toList := rfl
  rw [h1, splitOnCharAux_append ' ' t.toList ['B', 'e', 'a', 'r', 'e', 'r'] [] (by decide),
    splitOnCharAux_no_sep ' ' t.toList [] h]
  simp [string_mk_toList]

/-! ### Handler inversion lemmas -/

theorem check_auth_error_status (headers : List (String × String))
    (verify : String → Except String Json) (t : Option Json) (r : HttpResp)
    (h : check_auth headers verify = (t, some r)) : r.status = 401 := by
  unfold check_auth at h
  cases hl : List.lookup "Authorization" headers with
  | none =>
    simp only [hl] at h
    injection h with h1 h2
    injection h2 with h3
    rw [← h3]
  | some auth_header =>
    simp only [hl] at h
    by_cases he : auth_header = ""
    · rw [if_pos he] at h
      injection h with h1 h2
      injection h2 with h3
      rw [← h3]
    · rw [if_neg he] at h
      cases hv : verify (extract_token auth_header) with
      | ok decoded_token =>
        simp only [hv] at h
        injection h with h1 h2
        cases h2
      | error e =>
        simp only [hv] at h
        injection h with h1 h2
        injection h2 with h3
        rw [← h3]

theorem create_offers_success_inv (headers : List (String × String))
    (verify : String → Except String Json) (db : DB) (data : List (String × Json))
    (resp : HttpResp) (db' : DB) (ops : List DbOp)
    (hrun : create_offers headers verify db data = (resp, db', ops))
    (h200 : resp.status = 200) :
    ∃ tok us, check_auth headers verify = (tok, none) ∧
      (stage_offers db (dictGet data "discountPercentage") (dictGet data "productIds").arrD).2
        = Except.ok us ∧
      db' = commitUpdates db us ∧
      resp = ⟨200, Json.obj [("success", Json.bool true),
        ("message", Json.str "Ofertas creadas correctamente")]⟩ := by
  unfold create_offers at hrun
  rcases hca : check_auth headers verify with ⟨tok0, err⟩
  cases err with
  | some r =>
    simp only [hca] at hrun
    injection hrun with e1 e2
    have h401 := check_auth_error_status headers verify tok0 r hca
    rw [e1] at h401
    rw [h401] at h200
    cases h200
  | none =>
    simp only [hca] at hrun
    by_cases hcond : (!pyTruthy (dictGet data "productIds") || !(dictGet data "productIds").isArr
        || !pyTruthy (dictGet data "discountPercentage")) = true
    · simp only [hcond, if_true] at hrun
      injection hrun with e1 e2
      rw [← e1] at h200
      cases h200
    · simp only [hcond, Bool.false_eq_true, if_false] at hrun
      cases hres : (stage_offers db (dictGet data "discountPercentage")
          (dictGet data "productIds").arrD).2 with
      | error e =>
        simp only [hres] at hrun
        injection hrun with e1 e2
        rw [← e1] at h200
        cases h200
      | ok us =>
        simp only [hres] at hrun
        injection hrun with e1 e2
        injection e2 with e3 e4
        exact ⟨tok0, us, rfl, rfl, e3.symm, e1.symm⟩

theorem remove_offer_success_inv (headers : List (String × String))
    (verify : String → Except String Json) (db : DB) (data : List (String × Json))
    (resp : HttpResp) (db' : DB) (ops : List DbOp)
    (hrun : remove_offer headers verify db data = (resp, db', ops))
    (h200 : resp.status = 200) :
    ∃ tok pid d, check_auth headers verify = (tok, none) ∧
      docRefId (dictGet data "productId") = Except.ok pid ∧
      List.lookup pid db.products = some d ∧
      db' = ⟨mapReplace db.products pid removeOfferFields, db.orders⟩ ∧
      resp = ⟨200, Json.obj [("success", Json.bool true),
        ("message", Json.str "Oferta eliminada.")]⟩ := by
  unfold remove_offer at hrun
  rcases hca : check_auth headers verify with ⟨tok0, err⟩
  cases err with
  | some r =>
    simp only [hca] at hrun
    injection hrun with e1 e2
    have h401 := check_auth_error_status headers verify tok0 r hca
    rw [e1] at h401
    rw [h401] at h200
    cases h200
  | none =>
    simp only [hca] at hrun
    by_cases htr : pyTruthy (dictGet data "productId") = true
    · simp only [htr, Bool.not_true, Bool.false_eq_true, if_false] at hrun
      cases hdr : docRefId (dictGet data "productId") with
      | error e =>
        simp only [hdr] at hrun
        injection hrun with e1 e2
        rw [← e1] at h200
        cases h200
      | ok pid =>
        simp only [hdr] at hrun
        cases hlk : List.lookup pid db.products with
        | none =>
          simp only [hlk] at hrun
          injection hrun with e1 e2
          rw [← e1] at h200
          cases h200
        | some d =>
          simp only [hlk] at hrun
          injection hrun with e1 e2
          injection e2 with e3 e4
          exact ⟨tok0, pid, d, rfl, rfl, hlk, e3.symm, e1.symm⟩
    · have htr2 : pyTruthy (dictGet data "productId") = false := by
        cases hb : pyTruthy (dictGet data "productId")
        · rfl
        · exact absurd hb htr
      simp only [htr2, Bool.not_false, if_true] at hrun
      injection hrun with e1 e2
      rw [← e1] at h200
      cases h200

/-! ### Nodup-key and offer-filter lemmas -/

theorem lookup_eq_of_mem_nodup :
    ∀ (l : List (String × Doc)) (k : String) (v : Doc),
      (l.map Prod.fst).Nodup → (k, v) ∈ l → List.lookup k l = some v
  | [], _, _, _, hmem => by simp at hmem
  | (a, b) :: tl, k, v, hnd, hmem => by
    rw [List.map_cons, List.nodup_cons] at hnd
    rcases List.mem_cons.mp hmem with heq | hmem2
    · injection heq with h1 h2
      rw [lookup_cons, if_pos h1, h2]
    · have hka : k ≠ a := by
        intro hh
        exact hnd.1 (by
          rw [← hh]
          exact List.mem_map.mpr ⟨(k, v), hmem2, rfl⟩)
      rw [lookup_cons, if_neg hka]
      exact lookup_eq_of_mem_nodup tl k v hnd.2 hmem2

theorem isOfferTrue_setField_id (d : Doc) (v : Json) :
    isOfferTrue (setField d "id" v) = isOfferTrue d := by
  unfold isOfferTrue
  rw [lookup_setField_ne _ _ _ _ (by decide)]

theorem filter_map_inject_id :
    ∀ l : List (String × Doc),
      (l.filter (fun p => isOfferTrue p.2)).map (fun p => setField p.2 "id" (Json.str p.1)) =
        (l.map (fun p => setField p.2 "id" (Json.str p.1))).filter isOfferTrue
  | [] => rfl
  | p :: tl => by
    rw [List.filter_cons, List.map_cons, List.filter_cons, isOfferTrue_setField_id]
    by_cases hc : isOfferTrue p.2 = true
    · rw [if_pos hc, if_pos hc, List.map_cons, filter_map_inject_id tl]
    · have hc2 : isOfferTrue p.2 = false := by
        cases hb : isOfferTrue p.2
        · rfl
        · exact absurd hb hc
      rw [hc2, if_neg (by simp), if_neg (by simp), filter_map_inject_id tl]

theorem get_offers_eq_filter (db : DB) :
    get_offers_docs db = (get_all_products_docs db).filter isOfferTrue := by
  unfold get_offers_docs get_all_products_docs
  exact filter_map_inject_id db.products

theorem mem_get_offers_docs (db : DB) (r : Doc) (h : r ∈ get_offers_docs db) :
    ∃ i d, (i, d) ∈ db.products ∧ isOfferTrue d = true ∧
      r = setField d "id" (Json.str i) := by
  unfold get_offers_docs at h
  obtain ⟨p, hp, hpe⟩ := List.mem_map.mp h
  exact ⟨p.1, p.2, List.mem_of_mem_filter hp, by simpa using List.of_mem_filter hp, hpe.symm⟩

/-! ### Witness fixtures -/

/-- A sample product document with just a price. -/
def exP1 : Doc := [("price", Json.num 100)]

/-- A sample product document that already carries an offer. -/
def exP2 : Doc := [("price", Json.num 20), ("isOffer", Json.bool true),
  ("offerPrice", Json.num 10), ("discountPercentage", Json.num 50)]

/-- A sample database: two products, one order that sold `p2`. -/
def exDB : DB :=
  ⟨[("p1", exP1), ("p2", exP2)],
   [("o1", [("items", Json.arr [Json.obj [("productId", Json.str "p2")]])])]⟩

/-- Sample request headers carrying a bearer token. -/
def exHeaders : List (String × String) := [("Authorization", "Bearer tok")]

/-- A sample verifier that accepts every token. -/
def exVerify : String → Except String Json := fun _ => Except.ok Json.null

/-! ### Claim theorems -/

/-- C3: with a valid token, the `get_offers` response body is exactly the
`get_all_products` record list filtered by `isOffer == true`; both read
handlers are pure functions of the database state, so with no intervening
writes a repeated call returns the identical response. -/
theorem C3_get_offers_filters_get_all_products
    (headers : List (String × String)) (verify : String → Except String Json) (db : DB)
    (tok : Option Json) (hauth : check_auth headers verify = (tok, none)) :
    (get_offers headers verify db).1 =
      ⟨200, Json.arr (((get_all_products_docs db).filter isOfferTrue).map Json.obj)⟩ ∧
    get_offers headers verify db = get_offers headers verify db ∧
    get_all_products headers verify db = get_all_products headers verify db := by
  refine ⟨?_, rfl, rfl⟩
  unfold get_offers
  simp only [hauth]
  rw [get_offers_eq_filter]

/-- Witness for C3: the sample database, evaluated concretely. -/
theorem C3_witness :
    check_auth exHeaders exVerify = (some Json.null, none) ∧
    ((get_offers exHeaders exVerify exDB).1 =
      ⟨200, Json.arr (((get_all_products_docs exDB).filter isOfferTrue).map Json.obj)⟩ ∧
    get_offers exHeaders exVerify exDB = get_offers exHeaders exVerify exDB ∧
    get_all_products exHeaders exVerify exDB = get_all_products exHeaders exVerify exDB) :=
  have h : check_auth exHeaders exVerify = (some Json.null, none) := rfl
  ⟨h, C3_get_offers_filters_get_all_products exHeaders exVerify exDB (some Json.null) h⟩

/-- C6: a request whose headers carry no `Authorization` entry gets a 401
response with an `error` key from every protected handler; the handler
short-circuits, performing no database operation and leaving the state
unchanged. -/
theorem C6_missing_auth_short_circuits
    (headers : List (String × String)) (verify : String → Except String Json) (db : DB)
    (enumOf : List String → List String) (dataC dataR : List (String × Json))
    (hna : List.lookup "Authorization" headers = none) :
    ((get_all_products headers verify db).1.status = 401 ∧
      hasErrorKey (get_all_products headers verify db).1 = true ∧
      (get_all_products headers verify db).2 = []) ∧
    ((get_offers headers verify db).1.status = 401 ∧
      hasErrorKey (get_offers headers verify db).1 = true ∧
      (get_offers headers verify db).2 = []) ∧
    ((offer_suggestions headers verify db enumOf).1.status = 401 ∧
      hasErrorKey (offer_suggestions headers verify db enumOf).1 = true ∧
      (offer_suggestions headers verify db enumOf).2 = []) ∧
    ((create_offers headers verify db dataC).1.status = 401 ∧
      hasErrorKey (create_offers headers verify db dataC).1 = true ∧
      (create_offers headers verify db dataC).2.1 = db ∧
      (create_offers headers verify db dataC).2.2 = []) ∧
    ((remove_offer headers verify db dataR).1.status = 401 ∧
      hasErrorKey (remove_offer headers verify db dataR).1 = true ∧
      (remove_offer headers verify db dataR).2.1 = db ∧
      (remove_offer headers verify db dataR).2.2 = []) := by
  have hca : check_auth headers verify =
      (none, some ⟨401, Json.obj [("error",
        Json.str "No se proporcionó token de autorización")]⟩) := by
    unfold check_auth
    rw [hna]
  refine ⟨⟨?_, ?_, ?_⟩, ⟨?_, ?_, ?_⟩, ⟨?_, ?_, ?_⟩, ⟨?_, ?_, ?_, ?_⟩, ⟨?_, ?_, ?_, ?_⟩⟩ <;>
    simp [get_all_products, get_offers, offer_suggestions, create_offers, remove_offer,
      hca, hasErrorKey]

/-- Witness for C6: a request with empty headers against the sample
database. -/
theorem C6_witness :
    List.lookup "Authorization" ([] : List (String × String)) = none ∧
    (((get_all_products [] exVerify exDB).1.status = 401 ∧
      hasErrorKey (get_all_products [] exVerify exDB).1 = true ∧
      (get_all_products [] exVerify exDB).2 = []) ∧
    ((get_offers [] exVerify exDB).1.status = 401 ∧
      hasErrorKey (get_offers [] exVerify exDB).1 = true ∧
      (get_offers [] exVerify exDB).2 = []) ∧
    ((offer_suggestions [] exVerify exDB (fun l => l)).1.status = 401 ∧
      hasErrorKey (offer_suggestions [] exVerify exDB (fun l => l)).1 = true ∧
      (offer_suggestions [] exVerify exDB (fun l => l)).2 = []) ∧
    ((create_offers [] exVerify exDB []).1.status = 401 ∧
      hasErrorKey (create_offers [] exVerify exDB []).1 = true ∧
      (create_offers [] exVerify exDB []).2.1 = exDB ∧
      (create_offers [] exVerify exDB []).2.2 = []) ∧
    ((remove_offer [] exVerify exDB []).1.status = 401 ∧
      hasErrorKey (remove_offer [] exVerify exDB []).1 = true ∧
      (remove_offer [] exVerify exDB []).2.1 = exDB ∧
      (remove_offer [] exVerify exDB []).2.2 = [])) :=
  have h : List.lookup "Authorization" ([] : List (String × String)) = none := rfl
  ⟨h, C6_missing_auth_short_circuits [] exVerify exDB (fun l => l) [] [] h⟩

/-- C7 counterexample: on an authenticated request with
`discountPercentage = 0` the code answers 400, but the body is the Spanish
`error = "Datos inválidos"`, not `error = "invalid data"` as the claim
words the body. -/
theorem C7_counterexample :
    (create_offers exHeaders exVerify exDB
        [("discountPercentage", Json.num 0)]).1.body
      ≠ Json.obj [("error", Json.str "invalid data")] := by
  intro hcon
  have h2 : Json.obj [("error", Json.str "Datos inválidos")]
      = Json.obj [("error", Json.str "invalid data")] := by
    rw [← hcon]
    rfl
  injection h2 with h3
  injection h3 with h4 h5
  injection h4 with h6 h7
  injection h7 with h8
  exact absurd h8 (by decide)

/-- C7 (amended): for every authenticated `create_offers` request whose
body has `discountPercentage` equal to 0, or whose `productIds` is
missing, the empty array, or not an array, the handler returns 400 with
body `error = "Datos inválidos"` (the Spanish for "invalid data"), leaves
the database unchanged and performs no database operation. -/
theorem C7_invalid_data_rejected
    (headers : List (String × String)) (verify : String → Except String Json) (db : DB)
    (data : List (String × Json)) (tok : Option Json)
    (hauth : check_auth headers verify = (tok, none))
    (hbad : List.lookup "discountPercentage" data = some (Json.num 0)
      ∨ List.lookup "productIds" data = none
      ∨ List.lookup "productIds" data = some (Json.arr [])
      ∨ (dictGet data "productIds").isArr = false) :
    create_offers headers verify db data =
      (⟨400, Json.obj [("error", Json.str "Datos inválidos")]⟩, db, []) := by
  unfold create_offers
  simp only [hauth]
  have hcond : (!pyTruthy (dictGet data "productIds") || !(dictGet data "productIds").isArr
      || !pyTruthy (dictGet data "discountPercentage")) = true := by
    rcases hbad with h | h | h | h
    · simp [dictGet, h, pyTruthy]
    · simp [dictGet, h, pyTruthy]
    · simp [dictGet, h, pyTruthy]
    · simp [h]
  simp only [hcond, if_true]

/-- Witness for C7 (amended): `discountPercentage = 0` on the sample
database. -/
theorem C7_witness :
    check_auth exHeaders exVerify = (some Json.null, none) ∧
    List.lookup "discountPercentage" [("discountPercentage", Json.num 0)]
      = some (Json.num 0) ∧
    create_offers exHeaders exVerify exDB [("discountPercentage", Json.num 0)] =
      (⟨400, Json.obj [("error", Json.str "Datos inválidos")]⟩, exDB, []) :=
  have h1 : check_auth exHeaders exVerify = (some Json.null, none) := rfl
  have h2 : List.lookup "discountPercentage" [("discountPercentage", Json.num 0)]
      = some (Json.num 0) := rfl
  ⟨h1, h2, C7_invalid_data_rejected exHeaders exVerify exDB
    [("discountPercentage", Json.num 0)] (some Json.null) h1 (Or.inl h2)⟩

/-- C9 counterexample: the code splits the header on the space character
only (`split(" ")`), so for the header value `"Bearer\tabc"` it hands the
whole string to verification, while the last whitespace-separated token
is `"abc"`. -/
theorem C9_counterexample :
    extract_token "Bearer\tabc" ≠ lastWhitespaceToken "Bearer\tabc" := by
  decide

/-- C9 (amended): for a non-empty `Authorization` header `check_auth` hands
exactly `extract_token h` — the last element of splitting `h` on the single
space character — to the external verification call, and for a token `t`
containing no space each of the shapes `"Bearer " ++ t` and a bare `t`
results in `t` being verified. -/
theorem C9_token_extraction
    (headers : List (String × String)) (verify : String → Except String Json) (h : String)
    (hh : List.lookup "Authorization" headers = some h) (hne : h ≠ "") :
    (check_auth headers verify =
      match verify (extract_token h) with
      | Except.ok decoded_token => (some decoded_token, none)
      | Except.error e =>
        (none, some ⟨401, Json.obj [("error", Json.str "Token inválido o expirado"),
          ("details", Json.str e)]⟩)) ∧
    (∀ t : String, ' ' ∉ t.toList → t ≠ "" →
      extract_token ("Bearer " ++ t) = t ∧ extract_token t = t) := by
  constructor
  · unfold check_auth
    simp only [hh]
    rw [if_neg hne]
  · intro t ht _
    exact ⟨extract_token_bearer t ht, extract_token_no_space t ht⟩

/-- Witness for C9 (amended): the header `"Bearer abc"` with token
`"abc"`. -/
theorem C9_witness :
    List.lookup "Authorization" [("Authorization", "Bearer abc")] = some "Bearer abc" ∧
    "Bearer abc" ≠ "" ∧
    ((check_auth [("Authorization", "Bearer abc")] exVerify =
      match exVerify (extract_token "Bearer abc") with
      | Except.ok decoded_token => (some decoded_token, none)
      | Except.error e =>
        (none, some ⟨401, Json.obj [("error", Json.str "Token inválido o expirado"),
          ("details", Json.str e)]⟩)) ∧
    (∀ t : String, ' ' ∉ t.toList → t ≠ "" →
      extract_token ("Bearer " ++ t) = t ∧ extract_token t = t)) :=
  have h1 : List.lookup "Authorization" [("Authorization", "Bearer abc")]
      = some "Bearer abc" := rfl
  have h2 : "Bearer abc" ≠ "" := by decide
  ⟨h1, h2, C9_token_extraction [("Authorization", "Bearer abc")] exVerify "Bearer abc" h1 h2⟩

/-- Core of the batch-commit argument: a staged-and-committed offer update
for an existing listed product id leaves that document carrying the full
offer trio with the discounted price. -/
theorem stage_commit_offer_spec (db : DB) (ids : List Json)
    (us : List (String × List (String × Json))) (q : ℚ) (s : String) (d : Doc) (p : ℚ)
    (hres : (stage_offers db (Json.num q) ids).2 = Except.ok us)
    (hs : Json.str s ∈ ids)
    (hd : List.lookup s db.products = some d)
    (hp : dictGetD d "price" (Json.num 0) = Json.num p) :
    (s, [("isOffer", Json.bool true), ("offerPrice", Json.num (p * (1 - q / 100))),
      ("discountPercentage", Json.num q)]) ∈ us ∧
    (∀ f, (s, f) ∈ us →
      f = [("isOffer", Json.bool true), ("offerPrice", Json.num (p * (1 - q / 100))),
        ("discountPercentage", Json.num q)]) ∧
    ∃ d', List.lookup s (commitUpdates db us).products = some d' ∧
      List.lookup "isOffer" d' = some (Json.bool true) ∧
      List.lookup "offerPrice" d' = some (Json.num (p * (1 - q / 100))) ∧
      List.lookup "discountPercentage" d' = some (Json.num q) := by
  have hP := offerUpdate_num d q p hp
  obtain ⟨f, hf, hfin⟩ := stage_complete db (Json.num q) ids us s d hres hs hd
  have hfP : f = [("isOffer", Json.bool true), ("offerPrice", Json.num (p * (1 - q / 100))),
      ("discountPercentage", Json.num q)] := by
    rw [hP] at hf
    injection hf with h9
    exact h9.symm
  have hall : ∀ f', (s, f') ∈ us →
      f' = [("isOffer", Json.bool true), ("offerPrice", Json.num (p * (1 - q / 100))),
        ("discountPercentage", Json.num q)] := by
    intro f' hf'
    obtain ⟨_, d₀, hd₀, hup₀⟩ := stage_mem db (Json.num q) ids us hres s f' hf'
    rw [hd] at hd₀
    injection hd₀ with h10
    rw [← h10, hP] at hup₀
    injection hup₀ with h11
    exact h11.symm
  have hQ : ∀ dd : Doc,
      List.lookup "isOffer" (applyFields dd [("isOffer", Json.bool true),
        ("offerPrice", Json.num (p * (1 - q / 100))),
        ("discountPercentage", Json.num q)]) = some (Json.bool true) ∧
      List.lookup "offerPrice" (applyFields dd [("isOffer", Json.bool true),
        ("offerPrice", Json.num (p * (1 - q / 100))),
        ("discountPercentage", Json.num q)]) = some (Json.num (p * (1 - q / 100))) ∧
      List.lookup "discountPercentage" (applyFields dd [("isOffer", Json.bool true),
        ("offerPrice", Json.num (p * (1 - q / 100))),
        ("discountPercentage", Json.num q)]) = some (Json.num q) :=
    fun dd => ⟨lookup_offerPayload_isOffer dd _ _, lookup_offerPayload_offerPrice dd _ _,
      lookup_offerPayload_discount dd _ _⟩
  obtain ⟨d', hd', hQd'⟩ :=
    commit_lookup_of_payload
      (fun dd => List.lookup "isOffer" dd = some (Json.bool true) ∧
        List.lookup "offerPrice" dd = some (Json.num (p * (1 - q / 100))) ∧
        List.lookup "discountPercentage" dd = some (Json.num q))
      [("isOffer", Json.bool true), ("offerPrice", Json.num (p * (1 - q / 100))),
        ("discountPercentage", Json.num q)]
      s hQ us db.products d hd hall (Or.inl (hfP ▸ hfin))
  exact ⟨hfP ▸ hfin, hall, d', hd', hQd'.1, hQd'.2.1, hQd'.2.2⟩

/-- C2: for every product id listed in a valid authenticated
`create_offers` request whose document exists with stored price `p`
(defaulting to 0 when the `price` field is absent) and for every nonzero
numeric discount `q`, the committed batch update sets exactly
`isOffer = true`, `offerPrice = p * (1 - q / 100)` and
`discountPercentage = q` on that product. -/
theorem C2_create_offers_sets_discounted_price
    (headers : List (String × String)) (verify : String → Except String Json)
    (db : DB) (data : List (String × Json)) (tok : Option Json)
    (ids : List Json) (q : ℚ) (s : String) (d : Doc) (p : ℚ)
    (resp : HttpResp) (db' : DB) (ops : List DbOp)
    (hauth : check_auth headers verify = (tok, none))
    (hpids : List.lookup "productIds" data = some (Json.arr ids))
    (hdisc : List.lookup "discountPercentage" data = some (Json.num q))
    (hq : q ≠ 0)
    (hs : Json.str s ∈ ids)
    (hd : List.lookup s db.products = some d)
    (hp : dictGetD d "price" (Json.num 0) = Json.num p)
    (hrun : create_offers headers verify db data = (resp, db', ops))
    (h200 : resp.status = 200) :
    ∃ us d', (stage_offers db (Json.num q) ids).2 = Except.ok us ∧
      (s, [("isOffer", Json.bool true), ("offerPrice", Json.num (p * (1 - q / 100))),
        ("discountPercentage", Json.num q)]) ∈ us ∧
      (∀ f, (s, f) ∈ us →
        f = [("isOffer", Json.bool true), ("offerPrice", Json.num (p * (1 - q / 100))),
          ("discountPercentage", Json.num q)]) ∧
      List.lookup s db'.products = some d' ∧
      List.lookup "isOffer" d' = some (Json.bool true) ∧
      List.lookup "offerPrice" d' = some (Json.num (p * (1 - q / 100))) ∧
      List.lookup "discountPercentage" d' = some (Json.num q) := by
  obtain ⟨tok2, us, hca2, hres, hdb', hresp⟩ :=
    create_offers_success_inv headers verify db data resp db' ops hrun h200
  have hdg : dictGet data "discountPercentage" = Json.num q := by
    unfold dictGet
    rw [hdisc]
    rfl
  have hpg : (dictGet data "productIds").arrD = ids := by
    unfold dictGet
    rw [hpids]
    rfl
  rw [hdg, hpg] at hres
  obtain ⟨hmem, hall, d', hd', h1', h2', h3'⟩ :=
    stage_commit_offer_spec db ids us q s d p hres hs hd hp
  refine ⟨us, d', hres, hmem, hall, ?_, h1', h2', h3'⟩
  rw [hdb']
  exact hd'

/-- Witness for C2: a 50 percent discount on the sample product priced 100
yields an offer price of 50. -/
theorem C2_witness :
    check_auth exHeaders exVerify = (some Json.null, none) ∧
    List.lookup "productIds" [("productIds", Json.arr [Json.str "p1"]),
      ("discountPercentage", Json.num 50)] = some (Json.arr [Json.str "p1"]) ∧
    List.lookup "discountPercentage" [("productIds", Json.arr [Json.str "p1"]),
      ("discountPercentage", Json.num 50)] = some (Json.num 50) ∧
    (50 : ℚ) ≠ 0 ∧
    Json.str "p1" ∈ [Json.str "p1"] ∧
    List.lookup "p1" exDB.products = some exP1 ∧
    dictGetD exP1 "price" (Json.num 0) = Json.num 100 ∧
    create_offers exHeaders exVerify exDB
        [("productIds", Json.arr [Json.str "p1"]), ("discountPercentage", Json.num 50)] =
      (⟨200, Json.obj [("success", Json.bool true),
        ("message", Json.str "Ofertas creadas correctamente")]⟩,
       ⟨[("p1", [("price", Json.num 100), ("isOffer", Json.bool true),
          ("offerPrice", Json.num (100 * (1 - 50 / 100))),
          ("discountPercentage", Json.num 50)]), ("p2", exP2)], exDB.orders⟩,
       [DbOp.getProduct "p1", DbOp.commitBatch ["p1"]]) ∧
    (100 : ℚ) * (1 - 50 / 100) = 50 ∧
    (∃ us d', (stage_offers exDB (Json.num 50) [Json.str "p1"]).2 = Except.ok us ∧
      ("p1", [("isOffer", Json.bool true),
        ("offerPrice", Json.num ((100 : ℚ) * (1 - 50 / 100))),
        ("discountPercentage", Json.num 50)]) ∈ us ∧
      (∀ f, ("p1", f) ∈ us →
        f = [("isOffer", Json.bool true),
          ("offerPrice", Json.num ((100 : ℚ) * (1 - 50 / 100))),
          ("discountPercentage", Json.num 50)]) ∧
      List.lookup "p1" (DB.mk [("p1", [("price", Json.num 100), ("isOffer", Json.bool true),
          ("offerPrice", Json.num (100 * (1 - 50 / 100))),
          ("discountPercentage", Json.num 50)]), ("p2", exP2)] exDB.orders).products
        = some d' ∧
      List.lookup "isOffer" d' = some (Json.bool true) ∧
      List.lookup "offerPrice" d' = some (Json.num ((100 : ℚ) * (1 - 50 / 100))) ∧
      List.lookup "discountPercentage" d' = some (Json.num 50)) :=
  have h1 : check_auth exHeaders exVerify = (some Json.null, none) := rfl
  have h2 : List.lookup "productIds" [("productIds", Json.arr [Json.str "p1"]),
      ("discountPercentage", Json.num 50)] = some (Json.arr [Json.str "p1"]) := rfl
  have h3 : List.lookup "discountPercentage" [("productIds", Json.arr [Json.str "p1"]),
      ("discountPercentage", Json.num 50)] = some (Json.num 50) := rfl
  have h4 : (50 : ℚ) ≠ 0 := by norm_num
  have h5 : Json.str "p1" ∈ [Json.str "p1"] := List.mem_singleton.mpr rfl
  have h6 : List.lookup "p1" exDB.products = some exP1 := rfl
  have h7 : dictGetD exP1 "price" (Json.num 0) = Json.num 100 := rfl
  have h8 : create_offers exHeaders exVerify exDB
      [("productIds", Json.arr [Json.str "p1"]), ("discountPercentage", Json.num 50)] =
    (⟨200, Json.obj [("success", Json.bool true),
      ("message", Json.str "Ofertas creadas correctamente")]⟩,
     ⟨[("p1", [("price", Json.num 100), ("isOffer", Json.bool true),
        ("offerPrice", Json.num (100 * (1 - 50 / 100))),
        ("discountPercentage", Json.num 50)]), ("p2", exP2)], exDB.orders⟩,
     [DbOp.getProduct "p1", DbOp.commitBatch ["p1"]]) := rfl
  ⟨h1, h2, h3, h4, h5, h6, h7, h8, by norm_num,
    C2_create_offers_sets_discounted_price exHeaders exVerify exDB
      [("productIds", Json.arr [Json.str "p1"]), ("discountPercentage", Json.num 50)]
      (some Json.null) [Json.str "p1"] 50 "p1" exP1 100
      ⟨200, Json.obj [("success", Json.bool true),
        ("message", Json.str "Ofertas creadas correctamente")]⟩
      (DB.mk [("p1", [("price", Json.num 100), ("isOffer", Json.bool true),
          ("offerPrice", Json.num (100 * (1 - 50 / 100))),
          ("discountPercentage", Json.num 50)]), ("p2", exP2)] exDB.orders)
      [DbOp.getProduct "p1", DbOp.commitBatch ["p1"]]
      h1 h2 h3 h4 h5 h6 h7 h8 rfl⟩

/-- C8: a valid authenticated `create_offers` request that lists a product
id with no corresponding document still succeeds with the 200 success
response: staging succeeds, no update is staged (hence none committed) for
the missing id, no error is reported for it, and every listed id whose
document does exist is still updated with the offer trio. -/
theorem C8_missing_product_silently_skipped
    (headers : List (String × String)) (verify : String → Except String Json)
    (db : DB) (data : List (String × Json)) (tok : Option Json)
    (ids : List Json) (q : ℚ) (b : String)
    (hauth : check_auth headers verify = (tok, none))
    (hpids : List.lookup "productIds" data = some (Json.arr ids))
    (hdisc : List.lookup "discountPercentage" data = some (Json.num q))
    (hq : q ≠ 0)
    (hvalid : ∀ v ∈ ids, ∃ s, v = Json.str s ∧ validDocId s = true)
    (hprices : ∀ s d, Json.str s ∈ ids → List.lookup s db.products = some d →
      ∃ p : ℚ, dictGetD d "price" (Json.num 0) = Json.num p)
    (hb : Json.str b ∈ ids)
    (hmiss : List.lookup b db.products = none) :
    ∃ us, (stage_offers db (Json.num q) ids).2 = Except.ok us ∧
      (∀ f, (b, f) ∉ us) ∧
      (create_offers headers verify db data).1 =
        ⟨200, Json.obj [("success", Json.bool true),
          ("message", Json.str "Ofertas creadas correctamente")]⟩ ∧
      (create_offers headers verify db data).2.1 = commitUpdates db us ∧
      (∀ s d p, Json.str s ∈ ids → List.lookup s db.products = some d →
        dictGetD d "price" (Json.num 0) = Json.num p →
        ∃ d', List.lookup s (create_offers headers verify db data).2.1.products = some d' ∧
          List.lookup "isOffer" d' = some (Json.bool true) ∧
          List.lookup "offerPrice" d' = some (Json.num (p * (1 - q / 100))) ∧
          List.lookup "discountPercentage" d' = some (Json.num q)) := by
  obtain ⟨us, hus⟩ := stage_ok db q ids hvalid hprices
  have hdg : dictGet data "discountPercentage" = Json.num q := by
    unfold dictGet
    rw [hdisc]
    rfl
  have hpg : dictGet data "productIds" = Json.arr ids := by
    unfold dictGet
    rw [hpids]
    rfl
  have hie : ids.isEmpty = false := by
    cases ids
    · simp at hb
    · rfl
  have hrun : create_offers headers verify db data =
      (⟨200, Json.obj [("success", Json.bool true),
        ("message", Json.str "Ofertas creadas correctamente")]⟩,
       commitUpdates db us,
       (stage_offers db (Json.num q) ids).1 ++ [DbOp.commitBatch (us.map Prod.fst)]) := by
    unfold create_offers
    simp only [hauth, hpg, hdg, Json.arrD]
    simp only [hus]
    simp [pyTruthy, Json.isArr, hie, hq]
  refine ⟨us, hus, ?_, by rw [hrun], by rw [hrun], ?_⟩
  · intro f hf
    obtain ⟨_, d₀, hd₀, _⟩ := stage_mem db (Json.num q) ids us hus b f hf
    rw [hmiss] at hd₀
    cases hd₀
  · intro s d p hsin hsd hsp
    obtain ⟨_, _, d', hd', h1', h2', h3'⟩ :=
      stage_commit_offer_spec db ids us q s d p hus hsin hsd hsp
    rw [hrun]
    exact ⟨d', hd', h1', h2', h3'⟩

/-- Witness for C8: the request lists the missing id `"zz"` together with
the existing `"p1"`; the call succeeds and only `"p1"` is updated. -/
theorem C8_witness :
    check_auth exHeaders exVerify = (some Json.null, none) ∧
    List.lookup "productIds" [("productIds", Json.arr [Json.str "zz", Json.str "p1"]),
      ("discountPercentage", Json.num 50)] = some (Json.arr [Json.str "zz", Json.str "p1"]) ∧
    List.lookup "discountPercentage" [("productIds", Json.arr [Json.str "zz", Json.str "p1"]),
      ("discountPercentage", Json.num 50)] = some (Json.num 50) ∧
    (50 : ℚ) ≠ 0 ∧
    (∀ v ∈ [Json.str "zz", Json.str "p1"], ∃ s, v = Json.str s ∧ validDocId s = true) ∧
    (∀ s d, Json.str s ∈ [Json.str "zz", Json.str "p1"] →
      List.lookup s exDB.products = some d →
      ∃ p : ℚ, dictGetD d "price" (Json.num 0) = Json.num p) ∧
    Json.str "zz" ∈ [Json.str "zz", Json.str "p1"] ∧
    List.lookup "zz" exDB.products = none ∧
    (∃ us, (stage_offers exDB (Json.num 50) [Json.str "zz", Json.str "p1"]).2
        = Except.ok us ∧
      (∀ f, ("zz", f) ∉ us) ∧
      (create_offers exHeaders exVerify exDB
          [("productIds", Json.arr [Json.str "zz", Json.str "p1"]),
           ("discountPercentage", Json.num 50)]).1 =
        ⟨200, Json.obj [("success", Json.bool true),
          ("message", Json.str "Ofertas creadas correctamente")]⟩ ∧
      (create_offers exHeaders exVerify exDB
          [("productIds", Json.arr [Json.str "zz", Json.str "p1"]),
           ("discountPercentage", Json.num 50)]).2.1 = commitUpdates exDB us ∧
      (∀ s d p, Json.str s ∈ [Json.str "zz", Json.str "p1"] →
        List.lookup s exDB.products = some d →
        dictGetD d "price" (Json.num 0) = Json.num p →
        ∃ d', List.lookup s (create_offers exHeaders exVerify exDB
            [("productIds", Json.arr [Json.str "zz", Json.str "p1"]),
             ("discountPercentage", Json.num 50)]).2.1.products = some d' ∧
          List.lookup "isOffer" d' = some (Json.bool true) ∧
          List.lookup "offerPrice" d' = some (Json.num (p * (1 - (50 : ℚ) / 100))) ∧
          List.lookup "discountPercentage" d' = some (Json.num 50))) :=
  have h1 : check_auth exHeaders exVerify = (some Json.null, none) := rfl
  have h2 : List.lookup "productIds" [("productIds", Json.arr [Json.str "zz", Json.str "p1"]),
      ("discountPercentage", Json.num 50)]
      = some (Json.arr [Json.str "zz", Json.str "p1"]) := rfl
  have h3 : List.lookup "discountPercentage"
      [("productIds", Json.arr [Json.str "zz", Json.str "p1"]),
       ("discountPercentage", Json.num 50)] = some (Json.num 50) := rfl
  have h4 : (50 : ℚ) ≠ 0 := by norm_num
  have h5 : ∀ v ∈ [Json.str "zz", Json.str "p1"], ∃ s, v = Json.str s ∧
      validDocId s = true := by
    intro v hv
    rcases List.mem_cons.mp hv with h | h
    · exact ⟨"zz", h, by decide⟩
    · rcases List.mem_cons.mp h with h' | h'
      · exact ⟨"p1", h', by decide⟩
      · exact absurd h' (List.not_mem_nil v)
  have h6 : ∀ s d, Json.str s ∈ [Json.str "zz", Json.str "p1"] →
      List.lookup s exDB.products = some d →
      ∃ p : ℚ, dictGetD d "price" (Json.num 0) = Json.num p := by
    intro s d hm hd
    rcases List.mem_cons.mp hm with h | h
    · injection h with hzz
      rw [hzz] at hd
      rw [show List.lookup "zz" exDB.products = none from rfl] at hd
      cases hd
    · rcases List.mem_cons.mp h with h' | h'
      · injection h' with hp1
        rw [hp1] at hd
        rw [show List.lookup "p1" exDB.products = some exP1 from rfl] at hd
        injection hd with hdd
        exact ⟨100, by rw [← hdd]; rfl⟩
      · exact absurd h' (List.not_mem_nil _)
  have h7 : Json.str "zz" ∈ [Json.str "zz", Json.str "p1"] := List.mem_cons_self _ _
  have h8 : List.lookup "zz" exDB.products = none := rfl
  ⟨h1, h2, h3, h4, h5, h6, h7, h8,
    C8_missing_product_silently_skipped exHeaders exVerify exDB
      [("productIds", Json.arr [Json.str "zz", Json.str "p1"]),
       ("discountPercentage", Json.num 50)]
      (some Json.null) [Json.str "zz", Json.str "p1"] 50 "zz"
      h1 h2 h3 h4 h5 h6 h7 h8⟩

/-- C4: both mutation handlers preserve the all-or-none presence of the
offer trio `isOffer` / `offerPrice` / `discountPercentage`: starting from
a database satisfying the invariant, the state after a successful
`create_offers` call and the state after a successful `remove_offer` call
both satisfy it. -/
theorem C4_trio_invariant_preserved
    (headers : List (String × String)) (verify : String → Except String Json) (db : DB)
    (dataC dataR : List (String × Json))
    (respC : HttpResp) (dbC : DB) (opsC : List DbOp)
    (respR : HttpResp) (dbR : DB) (opsR : List DbOp)
    (hInv : dbInv db = true)
    (hc : create_offers headers verify db dataC = (respC, dbC, opsC))
    (hcs : respC.status = 200)
    (hr : remove_offer headers verify db dataR = (respR, dbR, opsR))
    (hrs : respR.status = 200) :
    dbInv dbC = true ∧ dbInv dbR = true := by
  unfold dbInv at hInv
  constructor
  · obtain ⟨tok, us, _, hres, hdbC, _⟩ :=
      create_offers_success_inv headers verify db dataC respC dbC opsC hc hcs
    rw [hdbC]
    unfold dbInv commitUpdates
    rw [List.all_eq_true]
    intro p hp
    refine mem_commit_trio us db.products ?_ ?_ p hp
    · exact List.all_eq_true.mp hInv
    · intro i f hf dd
      obtain ⟨_, d₀, _, hup⟩ := stage_mem db _ _ us hres i f hf
      obtain ⟨op, hshape⟩ := offerUpdate_ok_shape d₀ _ f hup
      rw [hshape]
      exact trioOk_offerPayload dd _ _
  · obtain ⟨tok, pid, d, _, _, hlk, hdbR, _⟩ :=
      remove_offer_success_inv headers verify db dataR respR dbR opsR hr hrs
    rw [hdbR]
    unfold dbInv
    rw [List.all_eq_true]
    intro p hp
    unfold mapReplace at hp
    obtain ⟨p₀, hp₀, hpe⟩ := List.mem_map.mp hp
    by_cases hcp : p₀.1 = pid
    · rw [← hpe]
      simp only [hcp, if_pos]
      exact trioOk_removeOfferFields p₀.2
    · rw [← hpe]
      simp only [hcp, if_neg, if_false]
      exact List.all_eq_true.mp hInv p₀ hp₀

/-- Witness for C4: a successful offer creation on `p1` and a successful
offer removal on `p2`, both from the sample database. -/
theorem C4_witness :
    dbInv exDB = true ∧
    create_offers exHeaders exVerify exDB
        [("productIds", Json.arr [Json.str "p1"]), ("discountPercentage", Json.num 50)] =
      (⟨200, Json.obj [("success", Json.bool true),
        ("message", Json.str "Ofertas creadas correctamente")]⟩,
       ⟨[("p1", [("price", Json.num 100), ("isOffer", Json.bool true),
          ("offerPrice", Json.num (100 * (1 - 50 / 100))),
          ("discountPercentage", Json.num 50)]), ("p2", exP2)], exDB.orders⟩,
       [DbOp.getProduct "p1", DbOp.commitBatch ["p1"]]) ∧
    remove_offer exHeaders exVerify exDB [("productId", Json.str "p2")] =
      (⟨200, Json.obj [("success", Json.bool true), ("message", Json.str "Oferta eliminada.")]⟩,
       ⟨[("p1", exP1), ("p2", [("price", Json.num 20)])], exDB.orders⟩,
       [DbOp.updateProduct "p2"]) ∧
    (dbInv ⟨[("p1", [("price", Json.num 100), ("isOffer", Json.bool true),
        ("offerPrice", Json.num (100 * (1 - 50 / 100))),
        ("discountPercentage", Json.num 50)]), ("p2", exP2)], exDB.orders⟩ = true ∧
     dbInv ⟨[("p1", exP1), ("p2", [("price", Json.num 20)])], exDB.orders⟩ = true) :=
  have h0 : dbInv exDB = true := rfl
  have hc : create_offers exHeaders exVerify exDB
      [("productIds", Json.arr [Json.str "p1"]), ("discountPercentage", Json.num 50)] =
    (⟨200, Json.obj [("success", Json.bool true),
      ("message", Json.str "Ofertas creadas correctamente")]⟩,
     ⟨[("p1", [("price", Json.num 100), ("isOffer", Json.bool true),
        ("offerPrice", Json.num (100 * (1 - 50 / 100))),
        ("discountPercentage", Json.num 50)]), ("p2", exP2)], exDB.orders⟩,
     [DbOp.getProduct "p1", DbOp.commitBatch ["p1"]]) := rfl
  have hr : remove_offer exHeaders exVerify exDB [("productId", Json.str "p2")] =
    (⟨200, Json.obj [("success", Json.bool true), ("message", Json.str "Oferta eliminada.")]⟩,
     ⟨[("p1", exP1), ("p2", [("price", Json.num 20)])], exDB.orders⟩,
     [DbOp.updateProduct "p2"]) := rfl
  ⟨h0, hc, hr,
    C4_trio_invariant_preserved exHeaders exVerify exDB
      [("productIds", Json.arr [Json.str "p1"]), ("discountPercentage", Json.num 50)]
      [("productId", Json.str "p2")]
      ⟨200, Json.obj [("success", Json.bool true),
        ("message", Json.str "Ofertas creadas correctamente")]⟩
      ⟨[("p1", [("price", Json.num 100), ("isOffer", Json.bool true),
         ("offerPrice", Json.num (100 * (1 - 50 / 100))),
         ("discountPercentage", Json.num 50)]), ("p2", exP2)], exDB.orders⟩
      [DbOp.getProduct "p1", DbOp.commitBatch ["p1"]]
      ⟨200, Json.obj [("success", Json.bool true), ("message", Json.str "Oferta eliminada.")]⟩
      ⟨[("p1", exP1), ("p2", [("price", Json.num 20)])], exDB.orders⟩
      [DbOp.updateProduct "p2"]
      h0 hc rfl hr rfl⟩

/-- C5: after a successful `create_offers` for an existing product id
followed by a successful `remove_offer` for the same id, the product
document carries none of `isOffer`, `offerPrice`, `discountPercentage`,
and a subsequent `get_offers` call does not include that product. -/
theorem C5_remove_after_create_restores
    (headers1 headers2 : List (String × String))
    (verify1 verify2 : String → Except String Json) (db : DB)
    (data1 data2 : List (String × Json)) (ids : List Json) (s : String) (d : Doc)
    (resp1 : HttpResp) (db1 : DB) (ops1 : List DbOp)
    (resp2 : HttpResp) (db2 : DB) (ops2 : List DbOp)
    (hnd : (db.products.map Prod.fst).Nodup)
    (hd : List.lookup s db.products = some d)
    (hpids : List.lookup "productIds" data1 = some (Json.arr ids))
    (hs : Json.str s ∈ ids)
    (hrun1 : create_offers headers1 verify1 db data1 = (resp1, db1, ops1))
    (h1 : resp1.status = 200)
    (hpid2 : List.lookup "productId" data2 = some (Json.str s))
    (hrun2 : remove_offer headers2 verify2 db1 data2 = (resp2, db2, ops2))
    (h2 : resp2.status = 200) :
    ∃ d'', List.lookup s db2.products = some d'' ∧
      List.lookup "isOffer" d'' = none ∧
      List.lookup "offerPrice" d'' = none ∧
      List.lookup "discountPercentage" d'' = none ∧
      ∀ r ∈ get_offers_docs db2, List.lookup "id" r ≠ some (Json.str s) := by
  obtain ⟨tokC, us, _, _, hdb1, _⟩ :=
    create_offers_success_inv headers1 verify1 db data1 resp1 db1 ops1 hrun1 h1
  obtain ⟨tokR, pid, d1, _, hdr, hlk1, hdb2, _⟩ :=
    remove_offer_success_inv headers2 verify2 db1 data2 resp2 db2 ops2 hrun2 h2
  have hpg : dictGet data2 "productId" = Json.str s := by
    unfold dictGet
    rw [hpid2]
    rfl
  rw [hpg] at hdr
  obtain ⟨hstr, _⟩ := docRefId_ok (Json.str s) pid hdr
  injection hstr with hsp
  subst hsp
  have hkeys1 : db1.products.map Prod.fst = db.products.map Prod.fst := by
    rw [hdb1]
    unfold commitUpdates
    exact map_fst_commit us db.products
  have hkeys2 : db2.products.map Prod.fst = db1.products.map Prod.fst := by
    rw [hdb2]
    exact map_fst_mapReplace s removeOfferFields db1.products
  have hnd2 : (db2.products.map Prod.fst).Nodup := by
    rw [hkeys2, hkeys1]
    exact hnd
  have hlk2 : List.lookup s db2.products = some (removeOfferFields d1) := by
    rw [hdb2]
    show List.lookup s (mapReplace db1.products s removeOfferFields) = _
    rw [lookup_mapReplace_self, hlk1]
    rfl
  refine ⟨removeOfferFields d1, hlk2, lookup_removeOfferFields_isOffer d1,
    lookup_removeOfferFields_offerPrice d1, lookup_removeOfferFields_discount d1, ?_⟩
  intro r hr hcon
  obtain ⟨i, docc, hmem, hoff, hre⟩ := mem_get_offers_docs db2 r hr
  have hid : List.lookup "id" r = some (Json.str i) := by
    rw [hre]
    exact lookup_setField_self docc "id" (Json.str i)
  rw [hid] at hcon
  injection hcon with hcon2
  injection hcon2 with hcon3
  subst hcon3
  have hdocc : List.lookup i db2.products = some docc :=
    lookup_eq_of_mem_nodup db2.products i docc hnd2 hmem
  rw [hlk2] at hdocc
  injection hdocc with hdocc2
  unfold isOfferTrue at hoff
  rw [← hdocc2, lookup_removeOfferFields_isOffer] at hoff
  cases hoff

/-- Witness for C5: create an offer on `p1`, then remove it; the product
is restored to its original single-field document and `get_offers` only
returns `p2`. -/
theorem C5_witness :
    ((exDB.products.map Prod.fst).Nodup ∧
     List.lookup "p1" exDB.products = some exP1 ∧
     List.lookup "productIds" [("productIds", Json.arr [Json.str "p1"]),
       ("discountPercentage", Json.num 50)] = some (Json.arr [Json.str "p1"]) ∧
     Json.str "p1" ∈ [Json.str "p1"] ∧
     create_offers exHeaders exVerify exDB
         [("productIds", Json.arr [Json.str "p1"]), ("discountPercentage", Json.num 50)] =
       (⟨200, Json.obj [("success", Json.bool true),
         ("message", Json.str "Ofertas creadas correctamente")]⟩,
        ⟨[("p1", [("price", Json.num 100), ("isOffer", Json.bool true),
           ("offerPrice", Json.num (100 * (1 - 50 / 100))),
           ("discountPercentage", Json.num 50)]), ("p2", exP2)], exDB.orders⟩,
        [DbOp.getProduct "p1", DbOp.commitBatch ["p1"]]) ∧
     List.lookup "productId" [("productId", Json.str "p1")] = some (Json.str "p1") ∧
     remove_offer exHeaders exVerify
         ⟨[("p1", [("price", Json.num 100), ("isOffer", Json.bool true),
            ("offerPrice", Json.num (100 * (1 - 50 / 100))),
            ("discountPercentage", Json.num 50)]), ("p2", exP2)], exDB.orders⟩
         [("productId", Json.str "p1")] =
       (⟨200, Json.obj [("success", Json.bool true),
         ("message", Json.str "Oferta eliminada.")]⟩,
        ⟨[("p1", [("price", Json.num 100)]), ("p2", exP2)], exDB.orders⟩,
        [DbOp.updateProduct "p1"])) ∧
    (∃ d'', List.lookup "p1"
        (DB.mk [("p1", [("price", Json.num 100)]), ("p2", exP2)] exDB.orders).products
        = some d'' ∧
      List.lookup "isOffer" d'' = none ∧
      List.lookup "offerPrice" d'' = none ∧
      List.lookup "discountPercentage" d'' = none ∧
      ∀ r ∈ get_offers_docs (DB.mk [("p1", [("price", Json.num 100)]), ("p2", exP2)]
        exDB.orders), List.lookup "id" r ≠ some (Json.str "p1")) :=
  have ha : (exDB.products.map Prod.fst).Nodup := by decide
  have hb : List.lookup "p1" exDB.products = some exP1 := rfl
  have hc : List.lookup "productIds" [("productIds", Json.arr [Json.str "p1"]),
      ("discountPercentage", Json.num 50)] = some (Json.arr [Json.str "p1"]) := rfl
  have hm : Json.str "p1" ∈ [Json.str "p1"] := List.mem_singleton.mpr rfl
  have hcr : create_offers exHeaders exVerify exDB
      [("productIds", Json.arr [Json.str "p1"]), ("discountPercentage", Json.num 50)] =
    (⟨200, Json.obj [("success", Json.bool true),
      ("message", Json.str "Ofertas creadas correctamente")]⟩,
     ⟨[("p1", [("price", Json.num 100), ("isOffer", Json.bool true),
        ("offerPrice", Json.num (100 * (1 - 50 / 100))),
        ("discountPercentage", Json.num 50)]), ("p2", exP2)], exDB.orders⟩,
     [DbOp.getProduct "p1", DbOp.commitBatch ["p1"]]) := rfl
  have hpi : List.lookup "productId" [("productId", Json.str "p1")]
      = some (Json.str "p1") := rfl
  have hrm : remove_offer exHeaders exVerify
      ⟨[("p1", [("price", Json.num 100), ("isOffer", Json.bool true),
         ("offerPrice", Json.num (100 * (1 - 50 / 100))),
         ("discountPercentage", Json.num 50)]), ("p2", exP2)], exDB.orders⟩
      [("productId", Json.str "p1")] =
    (⟨200, Json.obj [("success", Json.bool true),
      ("message", Json.str "Oferta eliminada.")]⟩,
     ⟨[("p1", [("price", Json.num 100)]), ("p2", exP2)], exDB.orders⟩,
     [DbOp.updateProduct "p1"]) := rfl
  ⟨⟨ha, hb, hc, hm, hcr, hpi, hrm⟩,
    C5_remove_after_create_restores exHeaders exHeaders exVerify exVerify exDB
      [("productIds", Json.arr [Json.str "p1"]), ("discountPercentage", Json.num 50)]
      [("productId", Json.str "p1")] [Json.str "p1"] "p1" exP1
      ⟨200, Json.obj [("success", Json.bool true),
        ("message", Json.str "Ofertas creadas correctamente")]⟩
      ⟨[("p1", [("price", Json.num 100), ("isOffer", Json.bool true),
         ("offerPrice", Json.num (100 * (1 - 50 / 100))),
         ("discountPercentage", Json.num 50)]), ("p2", exP2)], exDB.orders⟩
      [DbOp.getProduct "p1", DbOp.commitBatch ["p1"]]
      ⟨200, Json.obj [("success", Json.bool true),
        ("message", Json.str "Oferta eliminada.")]⟩
      ⟨[("p1", [("price", Json.num 100)]), ("p2", exP2)], exDB.orders⟩
      [DbOp.updateProduct "p1"]
      ha hb hc hm hcr rfl hpi hrm rfl⟩

/-- C10: frame property of the mutation handlers.  A successful
`create_offers` call leaves the orders collection and the set of product
documents unchanged, does not touch any product not listed in the request,
and changes only the fields `isOffer`, `offerPrice`, `discountPercentage`
of the listed products (in particular `price` is unchanged).  A successful
`remove_offer` call leaves orders and the document set unchanged, touches
only the named product, and changes only those three fields of it. -/
theorem C10_mutations_frame
    (headers1 headers2 : List (String × String))
    (verify1 verify2 : String → Except String Json) (db : DB)
    (data1 data2 : List (String × Json)) (ids : List Json)
    (resp1 : HttpResp) (db1 : DB) (ops1 : List DbOp)
    (resp2 : HttpResp) (db2 : DB) (ops2 : List DbOp) (pid : String)
    (hpids : List.lookup "productIds" data1 = some (Json.arr ids))
    (hrun1 : create_offers headers1 verify1 db data1 = (resp1, db1, ops1))
    (h1 : resp1.status = 200)
    (hpid2 : List.lookup "productId" data2 = some (Json.str pid))
    (hrun2 : remove_offer headers2 verify2 db data2 = (resp2, db2, ops2))
    (h2 : resp2.status = 200) :
    (db1.orders = db.orders ∧
     db1.products.map Prod.fst = db.products.map Prod.fst ∧
     (∀ j, Json.str j ∉ ids → List.lookup j db1.products = List.lookup j db.products) ∧
     (∀ j dj dj', List.lookup j db.products = some dj →
       List.lookup j db1.products = some dj' →
       ∀ k, k ≠ "isOffer" → k ≠ "offerPrice" → k ≠ "discountPercentage" →
         List.lookup k dj' = List.lookup k dj)) ∧
    (db2.orders = db.orders ∧
     db2.products.map Prod.fst = db.products.map Prod.fst ∧
     (∀ j, j ≠ pid → List.lookup j db2.products = List.lookup j db.products) ∧
     (∀ dj dj', List.lookup pid db.products = some dj →
       List.lookup pid db2.products = some dj' →
       ∀ k, k ≠ "isOffer" → k ≠ "offerPrice" → k ≠ "discountPercentage" →
         List.lookup k dj' = List.lookup k dj)) := by
  obtain ⟨tokC, us, _, hres, hdb1, _⟩ :=
    create_offers_success_inv headers1 verify1 db data1 resp1 db1 ops1 hrun1 h1
  have hpg : (dictGet data1 "productIds").arrD = ids := by
    unfold dictGet
    rw [hpids]
    rfl
  rw [hpg] at hres
  obtain ⟨tokR, pid', d1, _, hdr, hlk1, hdb2, _⟩ :=
    remove_offer_success_inv headers2 verify2 db data2 resp2 db2 ops2 hrun2 h2
  have hpg2 : dictGet data2 "productId" = Json.str pid := by
    unfold dictGet
    rw [hpid2]
    rfl
  rw [hpg2] at hdr
  obtain ⟨hstr, _⟩ := docRefId_ok (Json.str pid) pid' hdr
  injection hstr with hsp
  subst hsp
  constructor
  · refine ⟨?_, ?_, ?_, ?_⟩
    · rw [hdb1]
      rfl
    · rw [hdb1]
      exact map_fst_commit us db.products
    · intro j hj
      rw [hdb1]
      show List.lookup j (us.foldl applyUpdate db.products) = _
      refine lookup_commit_not_target j us db.products ?_
      intro f hf
      obtain ⟨hin, _⟩ := stage_mem db _ ids us hres j f hf
      exact hj hin
    · intro j dj dj' hdj hdj' k hk1 hk2 hk3
      have hkeys : ∀ f, (j, f) ∈ us →
          f.map Prod.fst = ["isOffer", "offerPrice", "discountPercentage"] := by
        intro f hf
        obtain ⟨_, d₀, _, hup⟩ := stage_mem db _ ids us hres j f hf
        obtain ⟨op, hshape⟩ := offerUpdate_ok_shape d₀ _ f hup
        rw [hshape]
        rfl
      obtain ⟨dd, hdd, hframe⟩ := commit_lookup_frame
        ["isOffer", "offerPrice", "discountPercentage"] j us db.products dj hdj hkeys
      rw [hdb1] at hdj'
      have h' : List.lookup j (us.foldl applyUpdate db.products) = some dj' := hdj'
      rw [hdd] at h'
      injection h' with hx
      rw [← hx]
      exact hframe k (by simp [hk1, hk2, hk3])
  · refine ⟨?_, ?_, ?_, ?_⟩
    · rw [hdb2]
    · rw [hdb2]
      exact map_fst_mapReplace pid removeOfferFields db.products
    · intro j hj
      rw [hdb2]
      show List.lookup j (mapReplace db.products pid removeOfferFields) = _
      exact lookup_mapReplace_ne pid j removeOfferFields hj db.products
    · intro dj dj' hdj hdj' k hk1 hk2 hk3
      rw [hdb2] at hdj'
      have h' : List.lookup pid (mapReplace db.products pid removeOfferFields)
          = some dj' := hdj'
      rw [lookup_mapReplace_self, hdj] at h'
      injection h' with hx
      rw [← hx]
      exact lookup_removeOfferFields_other dj k hk1 hk2 hk3

/-- Witness for C10: create an offer on `p1` and (independently) remove
the offer of `p2`, both from the sample database; all other fields and
documents are untouched. -/
theorem C10_witness :
    (List.lookup "productIds" [("productIds", Json.arr [Json.str "p1"]),
       ("discountPercentage", Json.num 50)] = some (Json.arr [Json.str "p1"]) ∧
     create_offers exHeaders exVerify exDB
         [("productIds", Json.arr [Json.str "p1"]), ("discountPercentage", Json.num 50)] =
       (⟨200, Json.obj [("success", Json.bool true),
         ("message", Json.str "Ofertas creadas correctamente")]⟩,
        ⟨[("p1", [("price", Json.num 100), ("isOffer", Json.bool true),
           ("offerPrice", Json.num (100 * (1 - 50 / 100))),
           ("discountPercentage", Json.num 50)]), ("p2", exP2)], exDB.orders⟩,
        [DbOp.getProduct "p1", DbOp.commitBatch ["p1"]]) ∧
     List.lookup "productId" [("productId", Json.str "p2")] = some (Json.str "p2") ∧
     remove_offer exHeaders exVerify exDB [("productId", Json.str "p2")] =
       (⟨200, Json.obj [("success", Json.bool true),
         ("message", Json.str "Oferta eliminada.")]⟩,
        ⟨[("p1", exP1), ("p2", [("price", Json.num 20)])], exDB.orders⟩,
        [DbOp.updateProduct "p2"])) ∧
    (((DB.mk [("p1", [("price", Json.num 100), ("isOffer", Json.bool true),
          ("offerPrice", Json.num (100 * (1 - 50 / 100))),
          ("discountPercentage", Json.num 50)]), ("p2", exP2)] exDB.orders).orders
        = exDB.orders ∧
      (DB.mk [("p1", [("price", Json.num 100), ("isOffer", Json.bool true),
          ("offerPrice", Json.num (100 * (1 - 50 / 100))),
          ("discountPercentage", Json.num 50)]), ("p2", exP2)] exDB.orders).products.map
          Prod.fst = exDB.products.map Prod.fst ∧
      (∀ j, Json.str j ∉ [Json.str "p1"] →
        List.lookup j (DB.mk [("p1", [("price", Json.num 100), ("isOffer", Json.bool true),
          ("offerPrice", Json.num (100 * (1 - 50 / 100))),
          ("discountPercentage", Json.num 50)]), ("p2", exP2)] exDB.orders).products
          = List.lookup j exDB.products) ∧
      (∀ j dj dj', List.lookup j exDB.products = some dj →
        List.lookup j (DB.mk [("p1", [("price", Json.num 100), ("isOffer", Json.bool true),
          ("offerPrice", Json.num (100 * (1 - 50 / 100))),
          ("discountPercentage", Json.num 50)]), ("p2", exP2)] exDB.orders).products
          = some dj' →
        ∀ k, k ≠ "isOffer" → k ≠ "offerPrice" → k ≠ "discountPercentage" →
          List.lookup k dj' = List.lookup k dj)) ∧
     ((DB.mk [("p1", exP1), ("p2", [("price", Json.num 20)])] exDB.orders).orders
        = exDB.orders ∧
      (DB.mk [("p1", exP1), ("p2", [("price", Json.num 20)])] exDB.orders).products.map
          Prod.fst = exDB.products.map Prod.fst ∧
      (∀ j, j ≠ "p2" →
        List.lookup j (DB.mk [("p1", exP1), ("p2", [("price", Json.num 20)])]
          exDB.orders).products = List.lookup j exDB.products) ∧
      (∀ dj dj', List.lookup "p2" exDB.products = some dj →
        List.lookup "p2" (DB.mk [("p1", exP1), ("p2", [("price", Json.num 20)])]
          exDB.orders).products = some dj' →
        ∀ k, k ≠ "isOffer" → k ≠ "offerPrice" → k ≠ "discountPercentage" →
          List.lookup k dj' = List.lookup k dj))) :=
  have hc : List.lookup "productIds" [("productIds", Json.arr [Json.str "p1"]),
      ("discountPercentage", Json.num 50)] = some (Json.arr [Json.str "p1"]) := rfl
  have hcr : create_offers exHeaders exVerify exDB
      [("productIds", Json.arr [Json.str "p1"]), ("discountPercentage", Json.num 50)] =
    (⟨200, Json.obj [("success", Json.bool true),
      ("message", Json.str "Ofertas creadas correctamente")]⟩,
     ⟨[("p1", [("price", Json.num 100), ("isOffer", Json.bool true),
        ("offerPrice", Json.num (100 * (1 - 50 / 100))),
        ("discountPercentage", Json.num 50)]), ("p2", exP2)], exDB.orders⟩,
     [DbOp.getProduct "p1", DbOp.commitBatch ["p1"]]) := rfl
  have hpi : List.lookup "productId" [("productId", Json.str "p2")]
      = some (Json.str "p2") := rfl
  have hrm : remove_offer exHeaders exVerify exDB [("productId", Json.str "p2")] =
    (⟨200, Json.obj [("success", Json.bool true),
      ("message", Json.str "Oferta eliminada.")]⟩,
     ⟨[("p1", exP1), ("p2", [("price", Json.num 20)])], exDB.orders⟩,
     [DbOp.updateProduct "p2"]) := rfl
  ⟨⟨hc, hcr, hpi, hrm⟩,
    C10_mutations_frame exHeaders exHeaders exVerify exVerify exDB
      [("productIds", Json.arr [Json.str "p1"]), ("discountPercentage", Json.num 50)]
      [("productId", Json.str "p2")] [Json.str "p1"]
      ⟨200, Json.obj [("success", Json.bool true),
        ("message", Json.str "Ofertas creadas correctamente")]⟩
      ⟨[("p1", [("price", Json.num 100), ("isOffer", Json.bool true),
         ("offerPrice", Json.num (100 * (1 - 50 / 100))),
         ("discountPercentage", Json.num 50)]), ("p2", exP2)], exDB.orders⟩
      [DbOp.getProduct "p1", DbOp.commitBatch ["p1"]]
      ⟨200, Json.obj [("success", Json.bool true),
        ("message", Json.str "Oferta eliminada.")]⟩
      ⟨[("p1", exP1), ("p2", [("price", Json.num 20)])], exDB.orders⟩
      [DbOp.updateProduct "p2"] "p2"
      hc hcr rfl hpi hrm rfl⟩

/-- C1: whenever `offer_suggestions` answers 200 (for any enumeration of
the unsold set that only lists elements of the set), the returned array
has at most 5 records, and every record is an existing product whose id is
in the set difference between all product ids and the collected sold ids,
and whose `isOffer` field is not `true`. -/
theorem C1_suggestions_sound
    (headers : List (String × String)) (verify : String → Except String Json) (db : DB)
    (enumOf : List String → List String) (rs : List Json) (ops : List DbOp)
    (hEnum : ∀ (l : List String) (x : String), x ∈ enumOf l → x ∈ l)
    (hRun : offer_suggestions headers verify db enumOf = (⟨200, Json.arr rs⟩, ops)) :
    rs.length ≤ 5 ∧
    ∃ sold, sold_product_ids db.orders = Except.ok sold ∧
      ∀ r ∈ rs, ∃ pid d₀,
        List.lookup pid db.products = some d₀ ∧
        r = Json.obj (setField d₀ "id" (Json.str pid)) ∧
        pid ∈ db.products.map Prod.fst ∧
        Json.str pid ∉ sold ∧
        List.lookup "isOffer" (setField d₀ "id" (Json.str pid)) ≠ some (Json.bool true) := by
  unfold offer_suggestions at hRun
  rcases hca : check_auth headers verify with ⟨tok0, err⟩
  cases err with
  | some r0 =>
    simp only [hca] at hRun
    injection hRun with e1 e2
    have h401 := check_auth_error_status headers verify tok0 r0 hca
    rw [e1] at h401
    simp at h401
  | none =>
    simp only [hca] at hRun
    unfold suggestions_core at hRun
    cases hu : unsold_product_ids db with
    | error e =>
      simp only [hu] at hRun
      injection hRun with e1 e2
      injection e1 with es eb
      simp at es
    | ok unsold =>
      simp only [hu] at hRun
      injection hRun with e1 e2
      injection e1 with es eb
      injection eb with er
      have hsub : ∀ x ∈ (if unsold.isEmpty then [] else (enumOf unsold).take 5),
          x ∈ unsold := by
        intro x hx
        by_cases hie : unsold.isEmpty = true
        · rw [if_pos hie] at hx
          simp at hx
        · rw [if_neg hie] at hx
          exact hEnum unsold x (List.take_subset 5 (enumOf unsold) hx)
      have hlen : (if unsold.isEmpty then [] else (enumOf unsold).take 5).length ≤ 5 := by
        by_cases hie : unsold.isEmpty = true
        · rw [if_pos hie]
          simp
        · rw [if_neg hie]
          rw [List.length_take]
          exact min_le_left _ _
      constructor
      · rw [← er, List.length_map]
        exact le_trans (List.length_filterMap_le _ _) hlen
      · have hu2 := hu
        unfold unsold_product_ids at hu2
        cases hsold : sold_product_ids db.orders with
        | error e =>
          simp only [hsold] at hu2
          cases hu2
        | ok sold =>
          refine ⟨sold, rfl, ?_⟩
          intro r hr
          rw [← er] at hr
          obtain ⟨dd, hdd, hre⟩ := List.mem_map.mp hr
          obtain ⟨pid, hpidmem, hfetch⟩ := List.mem_filterMap.mp hdd
          have hpidunsold := hsub pid hpidmem
          obtain ⟨sold', hs', hkey, hnot⟩ := unsold_mem db unsold hu pid hpidunsold
          rw [hsold] at hs'
          injection hs' with hse
          subst hse
          obtain ⟨d₀, hlk, hdde, hnt⟩ := fetchSuggestion_spec db pid dd hfetch
          refine ⟨pid, d₀, hlk, ?_, hkey, hnot, ?_⟩
          · rw [← hre, hdde]
          · intro hcon
            rw [lookup_setField_ne _ _ _ _ (by decide)] at hcon
            unfold dictGetD at hnt
            rw [hcon] at hnt
            simp [pyTruthy] at hnt

/-- Witness for C1: the sample database, with the identity enumeration:
only the unsold `p1` (which has no offer) is suggested. -/
theorem C1_witness :
    (∀ (l : List String) (x : String), x ∈ (fun l : List String => l) l → x ∈ l) ∧
    offer_suggestions exHeaders exVerify exDB (fun l => l) =
      (⟨200, Json.arr [Json.obj [("price", Json.num 100), ("id", Json.str "p1")]]⟩,
       [DbOp.streamProducts, DbOp.streamOrders, DbOp.getProduct "p1"]) ∧
    ([Json.obj [("price", Json.num 100), ("id", Json.str "p1")]].length ≤ 5 ∧
    ∃ sold, sold_product_ids exDB.orders = Except.ok sold ∧
      ∀ r ∈ [Json.obj [("price", Json.num 100), ("id", Json.str "p1")]], ∃ pid d₀,
        List.lookup pid exDB.products = some d₀ ∧
        r = Json.obj (setField d₀ "id" (Json.str pid)) ∧
        pid ∈ exDB.products.map Prod.fst ∧
        Json.str pid ∉ sold ∧
        List.lookup "isOffer" (setField d₀ "id" (Json.str pid)) ≠ some (Json.bool true)) :=
  have h1 : ∀ (l : List String) (x : String), x ∈ (fun l : List String => l) l → x ∈ l :=
    fun _ _ hx => hx
  have h2 : offer_suggestions exHeaders exVerify exDB (fun l => l) =
      (⟨200, Json.arr [Json.obj [("price", Json.num 100), ("id", Json.str "p1")]]⟩,
       [DbOp.streamProducts, DbOp.streamOrders, DbOp.getProduct "p1"]) := rfl
  ⟨h1, h2, C1_suggestions_sound exHeaders exVerify exDB (fun l => l)
    [Json.obj [("price", Json.num 100), ("id", Json.str "p1")]]
    [DbOp.streamProducts, DbOp.streamOrders, DbOp.getProduct "p1"] h1 h2⟩

end Mobi
